import Mathlib

/-
Verification of the Personality-mirror pipeline (crew_agents.py, generator.py)
against its natural-language specification.

Shallow embedding conventions:
- Python/JSON values are the inductive `PyValue`; Python `None` is `PyValue.none`.
- Python floats are modelled as exact decimals (`Decimal`, mantissa * 10^exponent);
  binary-float representation artifacts, `nan`, `inf`, and scientific-notation
  reprs are not modelled.  Trait scores after `round(x, 1)` are stored as integer
  tenths (`score = tenths / 10`).
- Fallible Python operations return `Except PyErr _`; an uncaught Python
  exception is an `Except.error`.
- The remote generate capability (crewai absent, so `crew_generate_with_agent`
  always falls through to the HTTP client) is an oracle
  `g : Nat -> String -> Except ApiErr String` mapping (call index, prompt) to
  the returned text or a raised error.  Call indices count outbound calls in
  program order.
-/

/-- Exact decimal number m * 10^e, the model of a Python float. -/
structure Decimal where
  m : Int
  e : Int
deriving DecidableEq

/-- Errors raised by the HTTP client `call_gemini_api` (generator.py). -/
inductive ApiErr where
  | configError
  | remoteError (status : Nat) (body : String)
  | jsonDecodeError
deriving DecidableEq

/-- Python runtime exceptions raised by agent/extraction code. -/
inductive PyErr where
  | typeError
  | attributeError
  | keyError
  | indexError
deriving DecidableEq

/-- Errors that can escape a stage runner: an oracle (HTTP) error or a Python
exception raised by the stage's own code. -/
inductive RunErr where
  | api (e : ApiErr)
  | py (e : PyErr)
deriving DecidableEq

/-- Decoded Python/JSON value. -/
inductive PyValue where
  | none
  | bool (b : Bool)
  | int (n : Int)
  | float (d : Decimal)
  | str (s : String)
  | list (xs : List PyValue)
  | dict (kvs : List (String × PyValue))

/- ---------- character / string helpers (models of Python str methods) ---------- -/

/-- Whitespace stripped by Python `str.strip()` and `float(...)`. -/
def pyIsSpace (c : Char) : Bool :=
  c = ' ' ∨ c = '\t' ∨ c = '\n' ∨ c = '\x0d' ∨ c = '\x0b' ∨ c = '\x0c'

/-- Model of Python `str.strip()` on a character list. -/
def stripWsChars (cs : List Char) : List Char :=
  ((cs.dropWhile pyIsSpace).reverse.dropWhile pyIsSpace).reverse

/-- Model of Python `str.strip()`. -/
def pyStrip (s : String) : String :=
  String.mk (stripWsChars s.data)

/-- Model of Python `str.rstrip("%")`: drop all trailing percent signs. -/
def rstripPct (s : String) : String :=
  String.mk ((s.data.reverse.dropWhile (fun c => c = '%')).reverse)

/-- Model of Python `str.lstrip(chars)`: drop leading characters from `set`. -/
def lstripChars (s : String) (set : List Char) : String :=
  String.mk (s.data.dropWhile (fun c => set.contains c))

/-- ASCII lower-casing of one character (Python `str.lower` restricted to ASCII,
which covers every key compared in the source). -/
def lowerChar (c : Char) : Char :=
  if 'A' ≤ c ∧ c ≤ 'Z' then Char.ofNat (c.toNat + 32) else c

/-- ASCII model of Python `str.lower()`. -/
def lowerStr (s : String) : String :=
  String.mk (s.data.map lowerChar)

/-- Model of Python string slicing `s[:n]` (first n code points). -/
def strTake (s : String) (n : Nat) : String :=
  String.mk (s.data.take n)

/-- Join strings with a separator (Python `sep.join(...)` for string elements). -/
def joinSep (sep : String) : List String → String
  | [] => ""
  | [x] => x
  | x :: y :: xs => x ++ sep ++ joinSep sep (y :: xs)

/-- Test whether `p` is a leading run of `cs`. -/
def leadsChars : List Char → List Char → Bool
  | [], _ => true
  | _ :: _, [] => false
  | p :: ps, c :: cs => p = c && leadsChars ps cs

/-- Scan for `n` as a contiguous run inside `cs`. -/
def containsRun (n : List Char) : List Char → Bool
  | [] => leadsChars n []
  | c :: rest => leadsChars n (c :: rest) || containsRun n rest

/-- Substring containment test (Python `needle in haystack` for strings). -/
def strContainsSub (hay needle : String) : Bool :=
  containsRun needle.data hay.data

/-- Index of the first occurrence of `c` (Python `str.find`, `none` for -1). -/
def firstIdxOf (cs : List Char) (c : Char) : Option Nat :=
  match cs with
  | [] => Option.none
  | x :: rest =>
    if x = c then some 0 else (firstIdxOf rest c).map (· + 1)

/-- Index of the last occurrence of `c` (Python `str.rfind`, `none` for -1). -/
def lastIdxOf (cs : List Char) (c : Char) : Option Nat :=
  match cs with
  | [] => Option.none
  | x :: rest =>
    match lastIdxOf rest c with
    | some i => some (i + 1)
    | Option.none => if x = c then some 0 else Option.none

/-- Inclusive slice `cs[s..e]` of a character list (Python `text[start:end+1]`). -/
def sliceIncl (cs : List Char) (s e : Nat) : List Char :=
  (cs.drop s).take (e + 1 - s)

/-- Model of Python `str.splitlines()` (newline, carriage return, CRLF;
rarer Unicode line breaks are not modelled). -/
def splitLinesAux (acc : List Char) : List Char → List String
  | [] => if acc.isEmpty then [] else [String.mk acc.reverse]
  | '\n' :: rest => String.mk acc.reverse :: splitLinesAux [] rest
  | '\x0d' :: '\n' :: rest => String.mk acc.reverse :: splitLinesAux [] rest
  | '\x0d' :: rest => String.mk acc.reverse :: splitLinesAux [] rest
  | c :: rest => splitLinesAux (c :: acc) rest

/-- Model of Python `str.splitlines()`. -/
def pySplitlines (s : String) : List String :=
  splitLinesAux [] s.data

/- ---------- PyValue basics ---------- -/

mutual
/-- Structural equality of Python values (models `==` for the JSON fragment;
Python's numeric cross-type equality such as `1 == 1.0` is not modelled — the
only use site compares against a string). -/
def beqV : PyValue → PyValue → Bool
  | .none, .none => true
  | .bool a, .bool b => a = b
  | .int a, .int b => a = b
  | .float a, .float b => a = b
  | .str a, .str b => a = b
  | .list a, .list b => beqL a b
  | .dict a, .dict b => beqD a b
  | _, _ => false
def beqL : List PyValue → List PyValue → Bool
  | [], [] => true
  | a :: as, b :: bs => beqV a b && beqL as bs
  | _, _ => false
def beqD : List (String × PyValue) → List (String × PyValue) → Bool
  | [], [] => true
  | (ka, va) :: as, (kb, vb) :: bs => ka = kb && beqV va vb && beqD as bs
  | _, _ => false
end

/-- Python truthiness of a value. -/
def pyTruthy : PyValue → Bool
  | .none => false
  | .bool b => b
  | .int n => n != 0
  | .float d => d.m != 0
  | .str s => s != ""
  | .list xs => !xs.isEmpty
  | .dict kvs => !kvs.isEmpty

/-- Test for `isinstance(v, dict)`. -/
def isDictB : PyValue → Bool
  | .dict _ => true
  | _ => false

/-- Test for `isinstance(v, list)`. -/
def isListB : PyValue → Bool
  | .list _ => true
  | _ => false

/-- Test for `isinstance(v, str)`. -/
def isStrB : PyValue → Bool
  | .str _ => true
  | _ => false

/-- First binding of key `k` in an association list (dict lookup). -/
def dictFind (kvs : List (String × PyValue)) (k : String) : Option PyValue :=
  match kvs with
  | [] => Option.none
  | (k0, v0) :: rest => if k0 = k then some v0 else dictFind rest k

/-- Key-membership test `k in d` for a dict. -/
def dictHasB (kvs : List (String × PyValue)) (k : String) : Bool :=
  (dictFind kvs k).isSome

/-- Model of `d.get(k, dflt)` for a dict. -/
def dictGetD (kvs : List (String × PyValue)) (k : String) (dflt : PyValue) : PyValue :=
  (dictFind kvs k).getD dflt

/-- Insert preserving first-occurrence position, last value wins
(Python dict assignment `d[k] = v`). -/
def objInsert (kvs : List (String × PyValue)) (k : String) (v : PyValue) :
    List (String × PyValue) :=
  match kvs with
  | [] => [(k, v)]
  | (k0, v0) :: rest =>
    if k0 = k then (k0, v) :: rest else (k0, v0) :: objInsert rest k v

/- ---------- Decimal (exact model of the Python floats in play) ---------- -/

/-- Comparison `a < b` of decimal values by scaling to the smaller exponent. -/
def Decimal.ltB (a b : Decimal) : Bool :=
  let e := min a.e b.e
  decide (a.m * 10 ^ (a.e - e).toNat < b.m * 10 ^ (b.e - e).toNat)

/-- Value of a decimal in the rationals (semantic reading, for specifications). -/
def Decimal.toRat (d : Decimal) : ℚ :=
  (d.m : ℚ) * 10 ^ d.e

/-- Round `m / p` (p a positive power of ten) to the nearest integer with
half-to-even tie-breaking; `/` and `%` are Euclidean and agree with Python's
floor division for the positive divisors used here. -/
def roundAtP (m p : Int) : Int :=
  if 2 * (m % p) < p then m / p
  else if p < 2 * (m % p) then m / p + 1
  else if (m / p) % 2 = 0 then m / p else m / p + 1

/-- Round a decimal to integer tenths with half-to-even tie-breaking: the model
of Python `round(x, 1)` on the exact decimal value (binary-float tie artifacts
are not modelled).  The result `t` stands for the score `t / 10`. -/
def roundTenthsHE (d : Decimal) : Int :=
  if 0 ≤ d.e + 1 then d.m * 10 ^ (d.e + 1).toNat
  else roundAtP d.m (10 ^ (-(d.e + 1)).toNat)

/-- Model of Python `min(100.0, score)`. -/
def pyMin100 (d : Decimal) : Decimal :=
  if Decimal.ltB d ⟨100, 0⟩ then d else ⟨100, 0⟩

/-- Model of Python `max(0.0, x)`. -/
def pyMax0 (d : Decimal) : Decimal :=
  if Decimal.ltB ⟨0, 0⟩ d then d else ⟨0, 0⟩

/-- Model of `round(max(0.0, min(100.0, score)), 1)` from run_trait_agent
(crew_agents.py line 116/129), producing the score in integer tenths. -/
def normalizeScore (d : Decimal) : Int :=
  roundTenthsHE (pyMax0 (pyMin100 d))

/-- Numeric value of a list of ASCII digits. -/
def natFromDigits (cs : List Char) : Nat :=
  cs.foldl (fun acc c => 10 * acc + (c.toNat - 48)) 0

/-- Drop factors of ten from a mantissa (fuelled; fuel `m.natAbs` suffices). -/
def stripTensAux : Nat → Int → Int → Int × Int
  | 0, m, e => (m, e)
  | fuel + 1, m, e =>
    if m ≠ 0 ∧ m % 10 = 0 then stripTensAux fuel (m / 10) (e + 1) else (m, e)

/-- Left-pad a digit string with zeros to length `k`. -/
def padZeros (s : String) (k : Nat) : String :=
  String.mk (List.replicate (k - s.data.length) '0') ++ s

/-- Python `repr` of the float valued `m * 10^e`: plain decimal notation with a
mandatory fractional part and trailing zeros dropped (Python switches to
scientific notation for very large/small magnitudes; not modelled). -/
def floatRepr (d : Decimal) : String :=
  let (m, e) := stripTensAux d.m.natAbs d.m d.e
  if m = 0 then "0.0"
  else
    let sign := if m < 0 then "-" else ""
    let a := m.natAbs
    if 0 ≤ e then
      sign ++ toString (a * 10 ^ e.toNat) ++ ".0"
    else
      let k := (-e).toNat
      let ip := a / 10 ^ k
      let fp := a % 10 ^ k
      sign ++ toString ip ++ "." ++ padZeros (toString fp) k

/-- Parser state after the digits of a float literal: mantissa digits seen so
far and the fractional length. -/
def pyFloatTail (sign : Int) (intDs fracDs : List Char) (rest : List Char) :
    Option Decimal :=
  if intDs.isEmpty ∧ fracDs.isEmpty then Option.none
  else
    let m : Int := sign * (natFromDigits (intDs ++ fracDs) : Int)
    let e0 : Int := -(fracDs.length : Int)
    match rest with
    | [] => some ⟨m, e0⟩
    | c :: rest2 =>
      if c = 'e' ∨ c = 'E' then
        let (esign, rest3) : Int × List Char :=
          match rest2 with
          | '+' :: r => (1, r)
          | '-' :: r => (-1, r)
          | r => (1, r)
        let eds := rest3.takeWhile Char.isDigit
        let rest4 := rest3.dropWhile Char.isDigit
        if eds.isEmpty ∨ ¬ rest4.isEmpty then Option.none
        else some ⟨m, e0 + esign * (natFromDigits eds : Int)⟩
      else Option.none

/-- Model of Python `float(s)` for decimal literals: optional sign, digits with
an optional point, optional exponent, surrounding whitespace allowed.  The
`inf`/`nan` spellings and digit-group underscores are not modelled. -/
def pyParseFloat (s : String) : Option Decimal :=
  let cs := stripWsChars s.data
  let (sign, cs1) : Int × List Char :=
    match cs with
    | '+' :: r => (1, r)
    | '-' :: r => (-1, r)
    | r => (1, r)
  let intDs := cs1.takeWhile Char.isDigit
  let cs2 := cs1.dropWhile Char.isDigit
  match cs2 with
  | '.' :: cs3 =>
    let fracDs := cs3.takeWhile Char.isDigit
    let cs4 := cs3.dropWhile Char.isDigit
    pyFloatTail sign intDs fracDs cs4
  | _ => pyFloatTail sign intDs [] cs2

/- ---------- JSON parsing (model of json.loads, strict mode) ---------- -/

/-- JSON structural whitespace. -/
def jWs (c : Char) : Bool :=
  c = ' ' ∨ c = '\t' ∨ c = '\n' ∨ c = '\x0d'

/-- Skip JSON whitespace. -/
def jSkip (cs : List Char) : List Char :=
  cs.dropWhile jWs

/-- Numeric value of one hex digit, 0 for non-hex input. -/
def hexVal (c : Char) : Nat :=
  if '0' ≤ c ∧ c ≤ '9' then c.toNat - 48
  else if 'a' ≤ c ∧ c ≤ 'f' then c.toNat - 87
  else if 'A' ≤ c ∧ c ≤ 'F' then c.toNat - 55
  else 0

/-- Hex-digit test. -/
def isHexDigit (c : Char) : Bool :=
  ('0' ≤ c ∧ c ≤ '9') ∨ ('a' ≤ c ∧ c ≤ 'f') ∨ ('A' ≤ c ∧ c ≤ 'F')

/-- Body of a JSON string after the opening quote: returns the decoded string
and the remainder.  Unescaped control characters are rejected (strict mode);
surrogate-pair recombination for `\uXXXX` escapes is not modelled. -/
def parseJStrAux (acc : List Char) : List Char → Option (String × List Char)
  | [] => Option.none
  | '"' :: rest => some (String.mk acc.reverse, rest)
  | '\\' :: esc =>
    match esc with
    | '"' :: rest => parseJStrAux ('"' :: acc) rest
    | '\\' :: rest => parseJStrAux ('\\' :: acc) rest
    | '/' :: rest => parseJStrAux ('/' :: acc) rest
    | 'b' :: rest => parseJStrAux ('\x08' :: acc) rest
    | 'f' :: rest => parseJStrAux ('\x0c' :: acc) rest
    | 'n' :: rest => parseJStrAux ('\n' :: acc) rest
    | 'r' :: rest => parseJStrAux ('\x0d' :: acc) rest
    | 't' :: rest => parseJStrAux ('\t' :: acc) rest
    | 'u' :: h1 :: h2 :: h3 :: h4 :: rest =>
      if isHexDigit h1 && isHexDigit h2 && isHexDigit h3 && isHexDigit h4 then
        parseJStrAux
          (Char.ofNat (((hexVal h1 * 16 + hexVal h2) * 16 + hexVal h3) * 16 + hexVal h4) :: acc)
          rest
      else Option.none
    | _ => Option.none
  | c :: rest => if c.toNat < 32 then Option.none else parseJStrAux (c :: acc) rest

/-- Finish a JSON number from its digit groups (grammar already validated). -/
def jNumOf (sign : Int) (intDs fracDs : List Char) (expSign : Int)
    (expDs : List Char) (isFloat : Bool) : PyValue :=
  if isFloat then
    .float ⟨sign * (natFromDigits (intDs ++ fracDs) : Int),
            -(fracDs.length : Int) + expSign * (natFromDigits expDs : Int)⟩
  else .int (sign * (natFromDigits intDs : Int))

/-- Signed exponent digits of a JSON number. -/
def jNumExp (sign : Int) (intDs fracDs : List Char) (cs : List Char) :
    Option (PyValue × List Char) :=
  let (esign, cs1) : Int × List Char :=
    match cs with
    | '+' :: r => (1, r)
    | '-' :: r => (-1, r)
    | r => (1, r)
  let eds := cs1.takeWhile Char.isDigit
  let cs2 := cs1.dropWhile Char.isDigit
  if eds.isEmpty then Option.none
  else some (jNumOf sign intDs fracDs esign eds true, cs2)

/-- Exponent part of a JSON number, then assembly. -/
def jNumTail (sign : Int) (intDs fracDs : List Char) (isFloat : Bool)
    (cs : List Char) : Option (PyValue × List Char) :=
  match cs with
  | 'e' :: r => jNumExp sign intDs fracDs r
  | 'E' :: r => jNumExp sign intDs fracDs r
  | _ => some (jNumOf sign intDs fracDs 1 [] isFloat, cs)

/-- JSON number literal: `-?(0|[1-9][0-9]*)(\.[0-9]+)?([eE][+-]?[0-9]+)?`.
Integers without fraction or exponent decode to Python int, others to float
(as in json.loads).  NaN/Infinity extensions are not modelled. -/
def parseJNum (cs : List Char) : Option (PyValue × List Char) :=
  let (sign, cs1) : Int × List Char :=
    match cs with
    | '-' :: r => (-1, r)
    | r => (1, r)
  let intDs := cs1.takeWhile Char.isDigit
  let cs2 := cs1.dropWhile Char.isDigit
  if intDs.isEmpty then Option.none
  else if intDs.length > 1 ∧ intDs.headD '0' = '0' then Option.none
  else
    let (fracDs, cs3) : List Char × List Char :=
      match cs2 with
      | '.' :: r => (r.takeWhile Char.isDigit, r.dropWhile Char.isDigit)
      | _ => ([], cs2)
    match cs2 with
    | '.' :: _ =>
      if fracDs.isEmpty then Option.none
      else jNumTail sign intDs fracDs true cs3
    | _ => jNumTail sign intDs [] false cs3

mutual
/-- Fuelled recursive-descent JSON value parser (call with fuel > input length;
every recursive call consumes at least one input character first). -/
def parseJVal : Nat → List Char → Option (PyValue × List Char)
  | 0, _ => Option.none
  | fuel + 1, cs =>
    match jSkip cs with
    | 'n' :: 'u' :: 'l' :: 'l' :: rest => some (.none, rest)
    | 't' :: 'r' :: 'u' :: 'e' :: rest => some (.bool true, rest)
    | 'f' :: 'a' :: 'l' :: 's' :: 'e' :: rest => some (.bool false, rest)
    | '"' :: rest =>
      match parseJStrAux [] rest with
      | some (s, r) => some (.str s, r)
      | Option.none => Option.none
    | '[' :: rest =>
      match jSkip rest with
      | ']' :: r => some (.list [], r)
      | r => match parseJElems fuel r with
        | some (vs, r2) => some (.list vs, r2)
        | Option.none => Option.none
    | '\x7b' :: rest =>
      match jSkip rest with
      | '\x7d' :: r => some (.dict [], r)
      | r => match parseJMembers fuel r with
        | some (kvs, r2) =>
          some (.dict (kvs.foldl (fun acc kv => objInsert acc kv.1 kv.2) []), r2)
        | Option.none => Option.none
    | c :: rest => if c = '-' ∨ c.isDigit then parseJNum (c :: rest) else Option.none
    | [] => Option.none

/-- Comma-separated JSON array elements up to the closing bracket. -/
def parseJElems : Nat → List Char → Option (List PyValue × List Char)
  | 0, _ => Option.none
  | fuel + 1, cs =>
    match parseJVal fuel cs with
    | Option.none => Option.none
    | some (v, rest) =>
      match jSkip rest with
      | ',' :: rest2 =>
        match parseJElems fuel rest2 with
        | some (vs, r) => some (v :: vs, r)
        | Option.none => Option.none
      | ']' :: rest2 => some ([v], rest2)
      | _ => Option.none

/-- Comma-separated JSON object members up to the closing brace. -/
def parseJMembers : Nat → List Char → Option (List (String × PyValue) × List Char)
  | 0, _ => Option.none
  | fuel + 1, cs =>
    match jSkip cs with
    | '"' :: rest =>
      match parseJStrAux [] rest with
      | Option.none => Option.none
      | some (k, rest2) =>
        match jSkip rest2 with
        | ':' :: rest3 =>
          match parseJVal fuel rest3 with
          | Option.none => Option.none
          | some (v, rest4) =>
            match jSkip rest4 with
            | ',' :: rest5 =>
              match parseJMembers fuel rest5 with
              | some (kvs, r) => some ((k, v) :: kvs, r)
              | Option.none => Option.none
            | '\x7d' :: rest5 => some ([(k, v)], rest5)
            | _ => Option.none
        | _ => Option.none
    | _ => Option.none
end

/-- Model of `json.loads(s)`: `some` parsed value, `none` when it raises. -/
def json_loads (s : String) : Option PyValue :=
  match parseJVal (s.data.length + 2) s.data with
  | some (v, rest) => if (jSkip rest).isEmpty then some v else Option.none
  | Option.none => Option.none

/- ---------- JSON serialization (model of json.dumps, default options) ---------- -/

/-- Four-digit uppercase-free hex rendering used by `\uXXXX` escapes. -/
def hex4 (n : Nat) : String :=
  let d := fun (k : Nat) =>
    if k < 10 then Char.ofNat (48 + k) else Char.ofNat (87 + k)
  String.mk [d (n / 4096 % 16), d (n / 256 % 16), d (n / 16 % 16), d (n % 16)]

/-- Escape one character as json.dumps does (ensure_ascii default; astral
characters would use surrogate pairs, not modelled). -/
def jEscChar (c : Char) : String :=
  if c = '"' then "\\\""
  else if c = '\\' then "\\\\"
  else if c = '\n' then "\\n"
  else if c = '\x0d' then "\\r"
  else if c = '\t' then "\\t"
  else if c = '\x08' then "\\b"
  else if c = '\x0c' then "\\f"
  else if c.toNat < 32 ∨ c.toNat > 126 then "\\u" ++ hex4 c.toNat
  else String.mk [c]

/-- JSON string literal for `s`. -/
def jQuote (s : String) : String :=
  "\"" ++ joinSep ("") (s.data.map jEscChar) ++ "\""

mutual
/-- Model of `json.dumps(v)` with default separators. -/
def json_dumps : PyValue → String
  | .none => "null"
  | .bool b => if b then "true" else "false"
  | .int n => toString n
  | .float d => floatRepr d
  | .str s => jQuote s
  | .list xs => "[" ++ jdList xs ++ "]"
  | .dict kvs => "\x7b" ++ jdDict kvs ++ "\x7d"
def jdList : List PyValue → String
  | [] => ""
  | [x] => json_dumps x
  | x :: y :: xs => json_dumps x ++ ", " ++ jdList (y :: xs)
def jdDict : List (String × PyValue) → String
  | [] => ""
  | [(k, v)] => jQuote k ++ ": " ++ json_dumps v
  | (k, v) :: y :: xs => jQuote k ++ ": " ++ json_dumps v ++ ", " ++ jdDict (y :: xs)
end

mutual
/-- Approximate model of Python `repr(v)` (single-quoted strings, container
notation).  In this development a container repr is only ever handed to
`float(...)`, which fails on it regardless of quoting details. -/
def pyRepr : PyValue → String
  | .none => "None"
  | .bool b => if b then "True" else "False"
  | .int n => toString n
  | .float d => floatRepr d
  | .str s => "\x27" ++ s ++ "\x27"
  | .list xs => "[" ++ prList xs ++ "]"
  | .dict kvs => "\x7b" ++ prDict kvs ++ "\x7d"
def prList : List PyValue → String
  | [] => ""
  | [x] => pyRepr x
  | x :: y :: xs => pyRepr x ++ ", " ++ prList (y :: xs)
def prDict : List (String × PyValue) → String
  | [] => ""
  | [(k, v)] => "\x27" ++ k ++ "\x27: " ++ pyRepr v
  | (k, v) :: y :: xs => "\x27" ++ k ++ "\x27: " ++ pyRepr v ++ ", " ++ prDict (y :: xs)
end

/-- Model of Python `str(v)`. -/
def pyStr : PyValue → String
  | .str s => s
  | .none => "None"
  | .bool b => if b then "True" else "False"
  | .int n => toString n
  | .float d => floatRepr d
  | .list xs => pyRepr (.list xs)
  | .dict kvs => pyRepr (.dict kvs)

/- ---------- Python operations that can raise ---------- -/

/-- Membership test `key in v`: dict key lookup, list element equality,
substring test for strings; TypeError on non-containers. -/
def pyContains (v : PyValue) (key : String) : Except PyErr Bool :=
  match v with
  | .dict kvs => .ok (dictHasB kvs key)
  | .list xs => .ok (xs.any (fun x => beqV x (.str key)))
  | .str s => .ok (strContainsSub s key)
  | _ => .error .typeError

/-- Subscription `v[key]` with a string key: KeyError on a missing dict key,
TypeError on lists/strings (indices must be integers) and scalars. -/
def pyGetItemS (v : PyValue) (key : String) : Except PyErr PyValue :=
  match v with
  | .dict kvs =>
    match dictFind kvs key with
    | some x => .ok x
    | Option.none => .error .keyError
  | _ => .error .typeError

/-- Subscription `v[i]` with integer index 0. -/
def pyGetIdx0 (v : PyValue) : Except PyErr PyValue :=
  match v with
  | .list xs =>
    match xs with
    | x :: _ => .ok x
    | [] => .error .indexError
  | .str s =>
    match s.data with
    | c :: _ => .ok (.str (String.mk [c]))
    | [] => .error .indexError
  | .dict _ => .error .keyError
  | _ => .error .typeError

/-- Iteration `for x in v`: list elements, string characters, dict keys;
TypeError otherwise. -/
def pyIter (v : PyValue) : Except PyErr (List PyValue) :=
  match v with
  | .list xs => .ok xs
  | .str s => .ok (s.data.map (fun c => .str (String.mk [c])))
  | .dict kvs => .ok (kvs.map (fun kv => .str kv.1))
  | _ => .error .typeError

/-- Method call `v.get(key, dflt)`: AttributeError unless `v` is a dict. -/
def pyDictGet (v : PyValue) (key : String) (dflt : PyValue) : Except PyErr PyValue :=
  match v with
  | .dict kvs => .ok (dictGetD kvs key dflt)
  | _ => .error .attributeError

/-- Method call `v.items()`: AttributeError unless `v` is a dict. -/
def pyItems (v : PyValue) : Except PyErr (List (String × PyValue)) :=
  match v with
  | .dict kvs => .ok kvs
  | _ => .error .attributeError

/-- Model of `"\n".join(texts)`: TypeError when a member is not a string. -/
def pyJoinNL (xs : List PyValue) : Except PyErr String :=
  match xs with
  | [] => .ok ""
  | .str s :: [] => .ok s
  | .str s :: y :: rest =>
    match pyJoinNL (y :: rest) with
    | .ok tail => .ok (s ++ "\n" ++ tail)
    | .error e => .error e
  | _ => .error .typeError

/- ---------- generator.py : response text extraction ---------- -/

mutual
/-- Embedding of the inner helper `find_texts` (generator.py lines 132-143):
depth-first collection of every string value sitting under a field whose name
lower-cases to "text".  Total: it raises nothing. -/
def find_texts : PyValue → List String
  | .dict kvs => ftDict kvs
  | .list xs => ftList xs
  | _ => []
/-- Dict branch of `find_texts`. -/
def ftDict : List (String × PyValue) → List String
  | [] => []
  | (k, v) :: rest =>
    (if lowerStr k = "text" then
      match v with
      | .str s => [s]
      | w => find_texts w
     else find_texts v) ++ ftDict rest
/-- List branch of `find_texts`. -/
def ftList : List PyValue → List String
  | [] => []
  | x :: rest => find_texts x ++ ftList rest
end

/-- Loop `for part in parts: if "text" in part: texts.append(part["text"])`
(generator.py lines 114-116 and 125-127). -/
def collectPartTexts : List PyValue → Except PyErr (List PyValue)
  | [] => .ok []
  | part :: rest =>
    match pyContains part ("text") with
    | .error e => .error e
    | .ok true =>
      match pyGetItemS part ("text") with
      | .error e => .error e
      | .ok v =>
        match collectPartTexts rest with
        | .error e => .error e
        | .ok more => .ok (v :: more)
    | .ok false => collectPartTexts rest

/-- Loop `for block in candidate["content"]: for part in block.get("parts", []) ...`
(generator.py lines 112-116). -/
def collectContentTexts : List PyValue → Except PyErr (List PyValue)
  | [] => .ok []
  | block :: rest =>
    match pyDictGet block ("parts") (.list []) with
    | .error e => .error e
    | .ok parts =>
      match pyIter parts with
      | .error e => .error e
      | .ok elems =>
        match collectPartTexts elems with
        | .error e => .error e
        | .ok ts =>
          match collectContentTexts rest with
          | .error e => .error e
          | .ok more => .ok (ts ++ more)

/-- Loop `for item in out.get("content", []): for part in item.get("parts", []) ...`
(generator.py lines 124-127). -/
def collectItemTexts : List PyValue → Except PyErr (List PyValue)
  | [] => .ok []
  | item :: rest =>
    match pyDictGet item ("parts") (.list []) with
    | .error e => .error e
    | .ok parts =>
      match pyIter parts with
      | .error e => .error e
      | .ok elems =>
        match collectPartTexts elems with
        | .error e => .error e
        | .ok ts =>
          match collectItemTexts rest with
          | .error e => .error e
          | .ok more => .ok (ts ++ more)

/-- Loop `for out in candidate["output"]: ...` (generator.py lines 122-127). -/
def collectOutputTexts : List PyValue → Except PyErr (List PyValue)
  | [] => .ok []
  | out :: rest =>
    match pyDictGet out ("content") (.list []) with
    | .error e => .error e
    | .ok content =>
      match pyIter content with
      | .error e => .error e
      | .ok elems =>
        match collectItemTexts elems with
        | .error e => .error e
        | .ok ts =>
          match collectOutputTexts rest with
          | .error e => .error e
          | .ok more => .ok (ts ++ more)

/-- Result of the recursive find_texts fallback inside the try block
(generator.py lines 145-147): `some text` models the `return`, `none` models
falling through to the final `json.dumps`. -/
def dfsResult (data : PyValue) : Option String :=
  if (find_texts data).isEmpty then Option.none
  else some (joinSep ("\n") (find_texts data))

/-- The `if "content" in candidate:` block (generator.py lines 111-118). -/
def contentBranch (candidate : PyValue) : Except PyErr (Option String) :=
  match pyContains candidate ("content") with
  | .error e => .error e
  | .ok true =>
    match pyGetItemS candidate ("content") with
    | .error e => .error e
    | .ok content =>
      match pyIter content with
      | .error e => .error e
      | .ok blocks =>
        match collectContentTexts blocks with
        | .error e => .error e
        | .ok texts =>
          if texts.isEmpty then .ok Option.none
          else
            match pyJoinNL texts with
            | .error e => .error e
            | .ok s => .ok (some s)
  | .ok false => .ok Option.none

/-- The `if "output" in candidate:` block (generator.py lines 121-129). -/
def outputBranch (candidate : PyValue) : Except PyErr (Option String) :=
  match pyContains candidate ("output") with
  | .error e => .error e
  | .ok true =>
    match pyGetItemS candidate ("output") with
    | .error e => .error e
    | .ok output =>
      match pyIter output with
      | .error e => .error e
      | .ok outs =>
        match collectOutputTexts outs with
        | .error e => .error e
        | .ok texts =>
          if texts.isEmpty then .ok Option.none
          else
            match pyJoinNL texts with
            | .error e => .error e
            | .ok s => .ok (some s)
  | .ok false => .ok Option.none

/-- Body of the `try:` block of the extraction logic (generator.py lines
106-147): `ok (some s)` models `return s` inside the try, `ok none` models
falling off the end of the try, `error e` models a raised exception.  The
truthiness test of `data["candidates"]` evaluates the subscription, so an
ill-typed access raises here exactly as in the source. -/
def extract_try (data : PyValue) : Except PyErr (Option String) :=
  match pyContains data ("candidates") with
  | .error e => .error e
  | .ok hasC =>
    match (if hasC then
            match pyGetItemS data ("candidates") with
            | .error e => .error e
            | .ok c => .ok (pyTruthy c)
          else .ok false : Except PyErr Bool) with
    | .error e => .error e
    | .ok enter =>
      if enter then
        match pyGetItemS data ("candidates") with
        | .error e => .error e
        | .ok cands =>
          match pyGetIdx0 cands with
          | .error e => .error e
          | .ok candidate =>
            match contentBranch candidate with
            | .error e => .error e
            | .ok (some s) => .ok (some s)
            | .ok Option.none =>
              match outputBranch candidate with
              | .error e => .error e
              | .ok (some s) => .ok (some s)
              | .ok Option.none => .ok (dfsResult data)
      else .ok (dfsResult data)

/-- Extraction result of `call_gemini_api` for a decoded body `data`
(generator.py lines 101-152): the `try` block's returned text when it returns
one, else — on fall-through or on any exception — `json.dumps(data)`. -/
def extract_text_from_response (data : PyValue) : String :=
  match extract_try data with
  | .ok (some s) => s
  | .ok Option.none => json_dumps data
  | .error _ => json_dumps data

/- ---------- generator.py : configuration and HTTP client ---------- -/

/-- Truthiness of `api_key`-style optional strings (`if not api_key`). -/
def pyTruthyOptStr : Option String → Bool
  | some s => s ≠ ""
  | Option.none => false

/-- Ambient configuration visible to `load_gemini_config`: whether the
Streamlit-secrets block ran without exception, the two secret entries, and the
two environment variables (None = unset). -/
structure CfgEnv where
  secretsOk : Bool
  secretsKey : Option String
  secretsModel : Option String
  envKey : Option String
  envModel : Option String

/-- Embedding of `load_gemini_config` (generator.py lines 10-41): secrets
store first, then environment variables, model defaulting to
"gemini-2.0-flash". -/
def load_gemini_config (c : CfgEnv) : Option String × String :=
  let api_key0 : Option String := if c.secretsOk then c.secretsKey else Option.none
  let model0 : Option String := if c.secretsOk then c.secretsModel else Option.none
  let api_key := if pyTruthyOptStr api_key0 then api_key0 else c.envKey
  let model :=
    if pyTruthyOptStr model0 then model0.getD ("")
    else c.envModel.getD ("gemini-2.0-flash")
  (api_key, model)

/-- Base URL of the Gemini endpoint (generator.py line 47). -/
def BASE_URL : String :=
  "https://generativelanguage.googleapis.com/v1beta/models"

/-- Embedding of `build_endpoint` (generator.py lines 50-51). -/
def build_endpoint (model : String) : String :=
  BASE_URL ++ "/" ++ model ++ ":generateContent"

/-- Request payload built by `call_gemini_api` (generator.py lines 77-89). -/
def gemini_payload (prompt : String) (temperature : Decimal)
    (max_output_tokens : Int) : PyValue :=
  .dict
    [("contents", .list
        [.dict [("role", .str "user"), ("parts", .list [.dict [("text", .str prompt)]])]]),
     ("generationConfig", .dict
        [("temperature", .float temperature),
         ("topP", .float ⟨95, -2⟩),
         ("maxOutputTokens", .int max_output_tokens)])]

/-- Embedding of `call_gemini_api` (generator.py lines 57-152).  The HTTP
exchange is abstracted by `resp : status x body-text` — the response the
single `requests.post` would produce for this call; `response.json()` raising
on a non-JSON 200 body is `jsonDecodeError`. -/
def call_gemini_api (c : CfgEnv) (resp : Nat × String) (prompt : String) :
    Except ApiErr String :=
  let cfg := load_gemini_config c
  if ¬ pyTruthyOptStr cfg.1 then .error .configError
  else
    let _endpoint := build_endpoint cfg.2
    let _payload := gemini_payload prompt ⟨7, -1⟩ 500
    if resp.1 ≠ 200 then .error (.remoteError resp.1 resp.2)
    else
      match json_loads resp.2 with
      | some data => .ok (extract_text_from_response data)
      | Option.none => .error .jsonDecodeError

/- ---------- crew_agents.py : templates and prompt construction ---------- -/

/-- TRAIT_PROMPT template (crew_agents.py lines 18-23), braces escaped. -/
def TRAIT_PROMPT : String :=
  "You are Trait Extractor Agent.\nGiven these user answers (short), extract 6-8 personality traits and give each a numeric score 0-100.\nReturn STRICT JSON: \x7b\x7b \"traits\": \x7b\x7b \"TraitName\": score, ... \x7d\x7d \x7d\x7d.\nAnswers:\n\x7banswers\x7d\n"

/-- SUMMARY_PROMPT template (crew_agents.py lines 25-32). -/
def SUMMARY_PROMPT : String :=
  "You are Summary Agent.\nGiven user answers and extracted traits, produce a concise 3-4 sentence personality summary.\nReturn STRICT JSON: \x7b\x7b \"summary\": \"...\" \x7d\x7d.\nAnswers:\n\x7banswers\x7d\nTraits (json):\n\x7btraits_json\x7d\n"

/-- VALIDATOR_PROMPT template (crew_agents.py lines 34-43). -/
def VALIDATOR_PROMPT : String :=
  "You are Validator & Recommendations Agent.\nGiven the answers and traits produce:\n1) 3 practical, concrete recommendations (bullet list).\n2) One validating single-sentence encouraging message.\nReturn STRICT JSON: \x7b\x7b \"recommendations\": [...], \"validating_message\": \"...\" \x7d\x7d.\nAnswers:\n\x7banswers\x7d\nTraits:\n\x7btraits_json\x7d\n"

/-- Fuelled scanner for Python `str.format`: `\x7b\x7b`/`\x7d\x7d` unescape to
one brace, `\x7bname\x7d` substitutes the named field (the source's templates
always supply their fields, so missing-field/stray-brace errors are inert and
modelled as identity). -/
def pyFormatAux : Nat → List Char → List (String × String) → List Char
  | 0, cs, _ => cs
  | fuel + 1, cs, subs =>
    match cs with
    | [] => []
    | '\x7b' :: '\x7b' :: rest => '\x7b' :: pyFormatAux fuel rest subs
    | '\x7d' :: '\x7d' :: rest => '\x7d' :: pyFormatAux fuel rest subs
    | '\x7b' :: rest =>
      let fname := rest.takeWhile (fun c => c ≠ '\x7d')
      let rest2 := (rest.dropWhile (fun c => c ≠ '\x7d')).drop 1
      ((subs.lookup (String.mk fname)).getD ("")).data ++ pyFormatAux fuel rest2 subs
    | c :: rest => c :: pyFormatAux fuel rest subs

/-- Model of Python `template.format(**subs)`. -/
def pyFormat (template : String) (subs : List (String × String)) : String :=
  String.mk (pyFormatAux (template.data.length + 1) template.data subs)

/-- The enumerated answers block `"\n".join(f"\x7bi+1\x7d. \x7ba\x7d" ...)`
(crew_agents.py lines 102, 134, 144). -/
def enumAnswers (answers : List String) : String :=
  joinSep ("\n") (answers.enum.map (fun p => toString (p.1 + 1) ++ ". " ++ p.2))

/-- Serialized trait map `json.dumps(traits)` as used in prompts; scores are
tenths, i.e. the Python floats `t / 10`. -/
def traits_json (traits : List (String × Int)) : String :=
  json_dumps (.dict (traits.map (fun kv => (kv.1, .float ⟨kv.2, -1⟩))))

/-- Formatted primary trait prompt (crew_agents.py line 102). -/
def trait_prompt (answers : List String) : String :=
  pyFormat TRAIT_PROMPT [("answers", enumAnswers answers)]

/-- Formatted summary prompt (crew_agents.py line 134). -/
def summary_prompt (answers : List String) (traits : List (String × Int)) : String :=
  pyFormat SUMMARY_PROMPT
    [("answers", enumAnswers answers), ("traits_json", traits_json traits)]

/-- Formatted validator prompt (crew_agents.py line 144). -/
def validator_prompt (answers : List String) (traits : List (String × Int)) : String :=
  pyFormat VALIDATOR_PROMPT
    [("answers", enumAnswers answers), ("traits_json", traits_json traits)]

/- ---------- crew_agents.py : safe_json_parse ---------- -/

/-- Embedding of `safe_json_parse` (crew_agents.py lines 82-95): strict parse
of the whole text, else parse of `text[text.find("\x7b") : text.rfind("\x7d")+1]`
when both braces exist with find < rfind, else Python None.  Never an
exception. -/
def safe_json_parse (text : String) : PyValue :=
  match json_loads text with
  | some v => v
  | Option.none =>
    match firstIdxOf text.data '\x7b', lastIdxOf text.data '\x7d' with
    | some s, some e =>
      if s < e then
        match json_loads (String.mk (sliceIncl text.data s e)) with
        | some v => v
        | Option.none => PyValue.none
      else PyValue.none
    | _, _ => PyValue.none

/- ---------- crew_agents.py : trait-score normalization ---------- -/

/-- Model of the direct coercion `float(v)` on a decoded JSON value:
numbers and booleans coerce, strings go through float-literal parsing,
None/lists/dicts raise. -/
def pyFloatCoerce : PyValue → Option Decimal
  | .bool b => some ⟨if b then 1 else 0, 0⟩
  | .int n => some ⟨n, 0⟩
  | .float d => some d
  | .str s => pyParseFloat s
  | _ => Option.none

/-- Primary-path score normalization (crew_agents.py lines 109-116):
`float(v)`, else `float(str(v).strip().rstrip("%"))`, else `0.0`; then
`round(max(0.0, min(100.0, score)), 1)`, in tenths. -/
def normalize_trait_value (v : PyValue) : Int :=
  match pyFloatCoerce v with
  | some d => normalizeScore d
  | Option.none =>
    match pyParseFloat (rstripPct (pyStrip (pyStr v))) with
    | some d => normalizeScore d
    | Option.none => normalizeScore ⟨0, 0⟩

/-- Retry-path score normalization (crew_agents.py lines 125-129): only
`float(v)`, else `0.0`; then the same clamp and round, in tenths. -/
def normalize_trait_value_retry (v : PyValue) : Int :=
  match pyFloatCoerce v with
  | some d => normalizeScore d
  | Option.none => normalizeScore ⟨0, 0⟩

/-- Assignment `traits[k] = score` (last value wins, first position kept). -/
def traitInsert (acc : List (String × Int)) (k : String) (t : Int) :
    List (String × Int) :=
  match acc with
  | [] => [(k, t)]
  | (k0, t0) :: rest =>
    if k0 = k then (k0, t) :: rest else (k0, t0) :: traitInsert rest k t

/-- Loop `for k, v in kvs: traits[k] = norm v` over an accumulator. -/
def buildTraitsAux (norm : PyValue → Int) :
    List (String × PyValue) → List (String × Int) → List (String × Int)
  | [], acc => acc
  | (k, v) :: rest, acc => buildTraitsAux norm rest (traitInsert acc k (norm v))

/-- The trait dictionary built from the items of `parsed["traits"]`. -/
def buildTraits (norm : PyValue → Int) (kvs : List (String × PyValue)) :
    List (String × Int) :=
  buildTraitsAux norm kvs []

/- ---------- crew_agents.py : stage runners ---------- -/

/-- Remote generate oracle: call index and prompt to response text or error
(the behaviour `crew_generate_with_agent` delegates to `call_gemini_api`). -/
def Gen : Type :=
  Nat → String → Except ApiErr String

/-- Result of one stage: its output, the next free call index, and the prompts
it sent, in order. -/
structure StageRes (α : Type) where
  out : α
  next : Nat
  prompts : List String

/-- Test `pyTruthy parsed && isinstance(parsed, dict) && "key" in parsed`. -/
def pyHasKeyB (v : PyValue) (k : String) : Bool :=
  match v with
  | .dict kvs => dictHasB kvs k
  | _ => false

/-- The `stricter` retry prompt of run_trait_agent (crew_agents.py line 120):
the raw TRAIT_PROMPT template — not the formatted primary prompt — with the
return-only-JSON instruction appended. -/
def trait_retry_prompt : String :=
  TRAIT_PROMPT ++ "\nImportant: Return only JSON and nothing else."

/-- Embedding of `run_trait_agent` (crew_agents.py lines 101-130). -/
def run_trait_agent (g : Gen) (n : Nat) (answers : List String) :
    Except RunErr (StageRes (List (String × Int))) :=
  let prompt := trait_prompt answers
  match g n prompt with
  | .error e => .error (.api e)
  | .ok raw =>
    let parsed := safe_json_parse raw
    if pyTruthy parsed && isDictB parsed && pyHasKeyB parsed ("traits") then
      match pyGetItemS parsed ("traits") with
      | .error e => .error (.py e)
      | .ok tv =>
        match pyItems tv with
        | .error e => .error (.py e)
        | .ok kvs => .ok ⟨buildTraits normalize_trait_value kvs, n + 1, [prompt]⟩
    else
      let stricter := trait_retry_prompt
      match g (n + 1) stricter with
      | .error e => .error (.api e)
      | .ok raw2 =>
        let parsed2 := safe_json_parse raw2
        if pyTruthy parsed2 then
          match pyContains parsed2 ("traits") with
          | .error e => .error (.py e)
          | .ok true =>
            match pyGetItemS parsed2 ("traits") with
            | .error e => .error (.py e)
            | .ok tv =>
              match pyItems tv with
              | .error e => .error (.py e)
              | .ok kvs =>
                .ok ⟨buildTraits normalize_trait_value_retry kvs, n + 2, [prompt, stricter]⟩
          | .ok false => .ok ⟨[], n + 2, [prompt, stricter]⟩
        else .ok ⟨[], n + 2, [prompt, stricter]⟩

/-- Embedding of `run_summary_agent` (crew_agents.py lines 132-140). -/
def run_summary_agent (g : Gen) (n : Nat) (answers : List String)
    (traits : List (String × Int)) : Except RunErr (StageRes PyValue) :=
  let prompt := summary_prompt answers traits
  match g n prompt with
  | .error e => .error (.api e)
  | .ok raw =>
    let parsed := safe_json_parse raw
    if pyTruthy parsed && isDictB parsed && pyHasKeyB parsed ("summary") then
      match pyGetItemS parsed ("summary") with
      | .error e => .error (.py e)
      | .ok v => .ok ⟨v, n + 1, [prompt]⟩
    else .ok ⟨.str (strTake (pyStrip raw) 1000), n + 1, [prompt]⟩

/-- Line test `l.startswith("-") or l[0].isdigit()` (callers pass non-empty
lines, so the IndexError branch is unreachable and modelled as false; the
digit test is modelled over ASCII digits). -/
def recLineB (l : String) : Bool :=
  match l.data with
  | c :: _ => c = '-' || c.isDigit
  | [] => false

/-- Marker stripping `l.lstrip("-0123456789. ").strip()`. -/
def recMarkerStrip (l : String) : String :=
  pyStrip (lstripChars l ("-0123456789. ".data))

/-- Loop collecting recommendation-like lines (crew_agents.py lines 158-160). -/
def validatorRecLoop : List String → List String
  | [] => []
  | l :: rest =>
    if recLineB l then recMarkerStrip l :: validatorRecLoop rest
    else validatorRecLoop rest

/-- Embedding of `run_validator_agent` (crew_agents.py lines 142-167). -/
def run_validator_agent (g : Gen) (n : Nat) (answers : List String)
    (traits : List (String × Int)) :
    Except RunErr (StageRes (List PyValue × PyValue)) :=
  let prompt := validator_prompt answers traits
  match g n prompt with
  | .error e => .error (.api e)
  | .ok raw =>
    let parsed := safe_json_parse raw
    if pyTruthy parsed then
      match pyDictGet parsed ("recommendations") (.list []) with
      | .error e => .error (.py e)
      | .ok recv =>
        let recs := match recv with | .list xs => xs | _ => []
        match pyDictGet parsed ("validating_message") (.str "") with
        | .error e => .error (.py e)
        | .ok vm1 =>
          match pyDictGet parsed ("validation") (.str "") with
          | .error e => .error (.py e)
          | .ok vm2 =>
            .ok ⟨(recs, if pyTruthy vm1 then vm1 else vm2), n + 1, [prompt]⟩
    else
      let lines := ((pySplitlines raw).map pyStrip).filter (fun l => l ≠ "")
      if lines.isEmpty then .ok ⟨([], .str ""), n + 1, [prompt]⟩
      else
        let recs1 := validatorRecLoop lines
        let recs2 := if recs1.isEmpty then lines.take 3 else recs1
        .ok ⟨(recs2.map PyValue.str, .str (lines.getLastD (""))), n + 1, [prompt]⟩

/- ---------- crew_agents.py : orchestrator ---------- -/

/-- Final result mapping: the five top-level keys of the dictionary built at
crew_agents.py lines 188-198, with `raw` flattened into its three entries. -/
structure PipelineResult where
  summary : PyValue
  traits : List (String × Int)
  recommendations : List PyValue
  validating_message : PyValue
  raw_trait_agent : Option String
  raw_summary_agent : Option String
  raw_validator_agent : Option String

/-- Outputs of the three primary stage calls plus the next free call index. -/
structure PrimaryOut where
  traits : List (String × Int)
  summary : PyValue
  recommendations : List PyValue
  validating_message : PyValue
  next : Nat

/-- Steps 1-3 of the orchestrator (crew_agents.py lines 179-186). -/
def primary_pass (g : Gen) (answers : List String) : Except RunErr PrimaryOut :=
  match run_trait_agent g 0 answers with
  | .error e => .error e
  | .ok t =>
    match run_summary_agent g t.next answers t.out with
    | .error e => .error e
    | .ok s =>
      match run_validator_agent g s.next answers t.out with
      | .error e => .error e
      | .ok v => .ok ⟨t.out, s.out, v.out.1, v.out.2, v.next⟩

/-- Best-effort diagnostic raw re-calls (crew_agents.py lines 202-209): three
sequential calls with the stage prompts rebuilt identically; the first raised
exception aborts the block, keeping the raw entries assigned so far, and is
swallowed. -/
def diag_raws (g : Gen) (answers : List String) (traits : List (String × Int))
    (n : Nat) : Option String × Option String × Option String :=
  match g n (trait_prompt answers) with
  | .error _ => (Option.none, Option.none, Option.none)
  | .ok t1 =>
    match g (n + 1) (summary_prompt answers traits) with
    | .error _ => (some t1, Option.none, Option.none)
    | .ok t2 =>
      match g (n + 2) (validator_prompt answers traits) with
      | .error _ => (some t1, some t2, Option.none)
      | .ok t3 => (some t1, some t2, some t3)

/-- Embedding of `run_multiagent_personality_pipeline` (crew_agents.py lines
173-211).  The `name` argument is accepted and unused, as in the source. -/
def run_multiagent_personality_pipeline (g : Gen) (answers : List String)
    (_name : String) : Except RunErr PipelineResult :=
  match primary_pass g answers with
  | .error e => .error e
  | .ok p =>
    let raws := diag_raws g answers p.traits p.next
    .ok ⟨p.summary, p.traits, p.recommendations, p.validating_message,
         raws.1, raws.2.1, raws.2.2⟩

set_option maxRecDepth 10000

/- ---------- specification-side definitions (worded from spec.md) ---------- -/

/-- Substring from the first opening brace to the last closing brace,
inclusive, when it exists (spec 4.3). -/
def braceSubstring (t : String) : Option String :=
  match firstIdxOf t.data '\x7b', lastIdxOf t.data '\x7d' with
  | some s, some e =>
    if s < e then some (String.mk (sliceIncl t.data s e)) else Option.none
  | _, _ => Option.none

/-- Non-empty stripped lines of the raw text (spec 4.4, ValidatorAgent
heuristic fallback). -/
def heurLines (raw : String) : List String :=
  ((pySplitlines raw).map pyStrip).filter (fun l => l ≠ "")

/-- Recommendations per the spec's heuristic: every line beginning with a dash
or a digit, marker stripped; the first three lines verbatim when none match. -/
def specRecs (raw : String) : List String :=
  if (((heurLines raw).filter recLineB).map recMarkerStrip).isEmpty
  then (heurLines raw).take 3
  else ((heurLines raw).filter recLineB).map recMarkerStrip

/-- Validating message per the spec's heuristic: the last non-empty line. -/
def specMsg (raw : String) : String :=
  (heurLines raw).getLastD ("")

/-- Well-shapedness of one `parts` element: a mapping whose "text" field, if
present, is a string (spec 4.1 step 1a). -/
def wellPart : PyValue → Bool
  | .dict pkvs =>
    match dictFind pkvs "text" with
    | some (.str _) => true
    | some _ => false
    | Option.none => true
  | _ => false

/-- Well-shapedness of a block's `parts` field: a sequence of well-shaped
parts. -/
def wellParts : PyValue → Bool
  | .list ps => ps.all wellPart
  | _ => false

/-- Well-shapedness of one content block: a mapping whose `parts` (defaulting
to the empty sequence) is well-shaped. -/
def wellBlock : PyValue → Bool
  | .dict bkvs => wellParts (dictGetD bkvs "parts" (.list []))
  | _ => false

/-- Well-shapedness of the content-block sequence. -/
def wellBlocks (bs : List PyValue) : Bool :=
  bs.all wellBlock

/-- Text values of a sequence of parts, per the spec's step 1a. -/
def specPartTexts : List PyValue → List String
  | [] => []
  | p :: rest =>
    (match p with
     | .dict pkvs =>
       match dictFind pkvs "text" with
       | some (.str s) => [s]
       | _ => []
     | _ => []) ++ specPartTexts rest

/-- Text values of the content blocks' parts, in encounter order (spec 4.1
step 1a). -/
def specBlockTexts : List PyValue → List String
  | [] => []
  | b :: rest =>
    (match b with
     | .dict bkvs =>
       specPartTexts
         (match dictGetD bkvs "parts" (.list []) with
          | .list ps => ps
          | _ => [])
     | _ => []) ++ specBlockTexts rest

/-- Goodness of one oracle response for total pipeline execution: it fails to
parse (or parses falsy), or parses to a mapping whose `traits` entry, when
present, is itself a mapping. -/
def goodRespB (s : String) : Bool :=
  !pyTruthy (safe_json_parse s) ||
  (match safe_json_parse s with
   | .dict kvs =>
     match dictFind kvs "traits" with
     | some tv => isDictB tv
     | Option.none => true
   | _ => false)

/- ---------- concrete oracles and bodies used by the claim theorems ---------- -/

/-- Oracle whose every call returns the text `{"traits": 1}` — valid JSON in
every response, yet the pipeline raises. -/
def gTraitsInt : Gen := fun _ _ => .ok ("\x7b\"traits\": 1\x7d")

/-- Oracle returning unparsable text on every call. -/
def gJunkW : Gen := fun _ _ => .ok ("junk")

/-- Oracle: primary trait call returns junk, the retry returns a trait map
whose score is the percent string "75%". -/
def gRetryPct : Gen := fun i _ =>
  if i = 0 then .ok ("junk") else .ok ("\x7b\"traits\": \x7b\"X\": \"75%\"\x7d\x7d")

/-- Configuration with the key present only in the environment. -/
def cfgEnvKey : CfgEnv :=
  ⟨false, Option.none, Option.none, some "k", Option.none⟩

/-- Oracle that answers the four primary calls and raises on every later
(diagnostic) call. -/
def gDiagFail : Gen := fun i _ =>
  if i < 4 then .ok ("junk") else .error (.remoteError 500 "boom")

/-- Response body with a truthy but non-subscriptable "candidates" value and a
text field elsewhere. -/
def dataC5 : PyValue := .dict [("candidates", .int 5), ("text", .str "hi")]

/-- Spec 8's well-shaped candidates/content/parts example body. -/
def dataHello5 : PyValue :=
  .dict [("candidates", .list [.dict [("content", .list
    [.dict [("parts", .list
      [.dict [("text", .str "Hello")], .dict [("text", .str "World")]])]])]])]

/-- Spec 8's no-known-schema example body with one buried text field. -/
def dataBuried5 : PyValue := .dict [("foo", .dict [("text", .str "buried")])]

/- ---------- arithmetic helper lemmas ---------- -/

/-- Bounds for the half-even rounding of `m / p` when `0 ≤ m < 1000 p`. -/
theorem roundAtP_bounds (m p : Int) (hp : 0 < p) (h0 : 0 ≤ m)
    (h : m < 1000 * p) : 0 ≤ roundAtP m p ∧ roundAtP m p ≤ 1000 := by
  have hqnn : 0 ≤ m / p := Int.ediv_nonneg h0 (le_of_lt hp)
  have hqlt : m / p < 1000 := Int.ediv_lt_of_lt_mul hp (by nlinarith)
  unfold roundAtP
  split
  · omega
  · split
    · omega
    · split <;> omega

/-- Bounds for the tenths rounding of a decimal known nonnegative and below 100. -/
theorem roundTenthsHE_bounds (d : Decimal) (h0 : 0 ≤ d.m)
    (h100 : Decimal.ltB d ⟨100, 0⟩ = true) :
    0 ≤ roundTenthsHE d ∧ roundTenthsHE d ≤ 1000 := by
  simp only [Decimal.ltB, decide_eq_true_eq] at h100
  unfold roundTenthsHE
  split
  · rename_i he
    constructor
    · positivity
    · rcases le_or_lt 0 d.e with h | h
      · have hmin : min d.e (0 : Int) = 0 := by omega
        rw [hmin] at h100
        have ht0 : ((0 : Int) - 0).toNat = 0 := by omega
        have ht1 : (d.e - (0 : Int)).toNat = d.e.toNat := by omega
        rw [ht0, ht1] at h100
        simp only [pow_zero, mul_one] at h100
        have hpow : (10 : Int) ^ (d.e + 1).toNat = 10 ^ d.e.toNat * 10 := by
          have hn : (d.e + 1).toNat = d.e.toNat + 1 := by omega
          rw [hn, pow_succ]
        rw [hpow, ← mul_assoc]
        nlinarith
      · have hmin : min d.e (0 : Int) = d.e := by omega
        rw [hmin] at h100
        have ht0 : (d.e - d.e).toNat = 0 := by omega
        have ht1 : ((0 : Int) - d.e).toNat = 1 := by omega
        rw [ht0, ht1] at h100
        simp only [pow_zero, mul_one, pow_one] at h100
        have ht2 : (d.e + 1).toNat = 0 := by omega
        rw [ht2]
        simp only [pow_zero, mul_one]
        omega
  · rename_i he
    have hmin : min d.e (0 : Int) = d.e := by omega
    rw [hmin] at h100
    have hpv : (0 : Int) < 10 ^ (-(d.e + 1)).toNat := by positivity
    have ht0 : (d.e - d.e).toNat = 0 := by omega
    have hexp : ((0 : Int) - d.e).toNat = (-(d.e + 1)).toNat + 1 := by omega
    rw [ht0, hexp] at h100
    simp only [pow_zero, mul_one, pow_succ] at h100
    apply roundAtP_bounds _ _ hpv h0
    nlinarith

/-- Unconditional range of the clamped, rounded score: the tenths always land
in [0, 1000], i.e. the score in [0, 100]. -/
theorem normalizeScore_bounds (d : Decimal) :
    0 ≤ normalizeScore d ∧ normalizeScore d ≤ 1000 := by
  unfold normalizeScore pyMax0
  by_cases hpos : Decimal.ltB ⟨0, 0⟩ (pyMin100 d) = true
  · rw [if_pos hpos]
    have hmn : 0 ≤ (pyMin100 d).m := by
      simp only [Decimal.ltB, decide_eq_true_eq] at hpos
      simp only [zero_mul] at hpos
      rcases mul_pos_iff.mp hpos with ⟨h, _⟩ | ⟨_, h⟩
      · exact le_of_lt h
      · exact absurd h (not_lt.mpr (by positivity))
    unfold pyMin100 at hmn ⊢
    by_cases hlt : Decimal.ltB d ⟨100, 0⟩ = true
    · rw [if_pos hlt] at hmn ⊢
      exact roundTenthsHE_bounds d hmn hlt
    · rw [if_neg hlt]
      norm_num [roundTenthsHE]
  · rw [if_neg hpos]
    norm_num [roundTenthsHE]

/- ---------- stage-level helper lemmas ---------- -/

/-- The guard `parsed and isinstance(parsed, dict) and "k" in parsed` is
equivalent to plain key-containment: a dict that contains a key is non-empty,
hence truthy. -/
theorem cond_eq_hasKey (v : PyValue) (k : String) :
    (pyTruthy v && isDictB v && pyHasKeyB v k) = pyHasKeyB v k := by
  cases v <;> simp [pyTruthy, isDictB, pyHasKeyB]
  rename_i kvs
  cases kvs with
  | nil => simp [dictHasB, dictFind]
  | cons hd tl => simp [List.isEmpty]

/-- The imperative recommendation loop is the filter-then-strip map. -/
theorem validatorRecLoop_eq (ls : List String) :
    validatorRecLoop ls = (ls.filter recLineB).map recMarkerStrip := by
  induction ls with
  | nil => rfl
  | cons l rest ih =>
    by_cases h : recLineB l = true
    · simp [validatorRecLoop, List.filter, h, ih]
    · simp only [Bool.not_eq_true] at h
      simp [validatorRecLoop, List.filter, h, ih]

/-- Joining a list of Python strings never raises and yields the plain join. -/
theorem pyJoinNL_map_str (ts : List String) :
    pyJoinNL (ts.map PyValue.str) = .ok (joinSep ("\n") ts) := by
  induction ts with
  | nil => rfl
  | cons t rest ih =>
    cases rest with
    | nil => rfl
    | cons u more =>
      simp only [List.map, pyJoinNL, joinSep] at ih ⊢
      rw [ih]

/-- The trait stage only consults the oracle at indices n and n+1. -/
theorem run_trait_agent_congr (g g' : Gen) (n : Nat) (a : List String)
    (h0 : ∀ s, g' n s = g n s) (h1 : ∀ s, g' (n + 1) s = g (n + 1) s) :
    run_trait_agent g' n a = run_trait_agent g n a := by
  simp only [run_trait_agent, h0, h1]

/-- The summary stage only consults the oracle at index n. -/
theorem run_summary_agent_congr (g g' : Gen) (n : Nat) (a : List String)
    (tr : List (String × Int)) (h0 : ∀ s, g' n s = g n s) :
    run_summary_agent g' n a tr = run_summary_agent g n a tr := by
  simp only [run_summary_agent, h0]

/-- The validator stage only consults the oracle at index n. -/
theorem run_validator_agent_congr (g g' : Gen) (n : Nat) (a : List String)
    (tr : List (String × Int)) (h0 : ∀ s, g' n s = g n s) :
    run_validator_agent g' n a tr = run_validator_agent g n a tr := by
  simp only [run_validator_agent, h0]

/-- A successful trait stage hands back call index n+1 or n+2. -/
theorem run_trait_agent_next (g : Gen) (n : Nat) (a : List String)
    (r : StageRes (List (String × Int))) (h : run_trait_agent g n a = .ok r) :
    r.next = n + 1 ∨ r.next = n + 2 := by
  simp only [run_trait_agent] at h
  repeat' split at h
  all_goals first
    | exact (Except.noConfusion h)
    | (cases h; simp)

/-- A successful summary stage hands back call index n+1. -/
theorem run_summary_agent_next (g : Gen) (n : Nat) (a : List String)
    (tr : List (String × Int)) (r : StageRes PyValue)
    (h : run_summary_agent g n a tr = .ok r) : r.next = n + 1 := by
  simp only [run_summary_agent] at h
  repeat' split at h
  all_goals first
    | exact (Except.noConfusion h)
    | (cases h; simp)

/-- A successful validator stage hands back call index n+1. -/
theorem run_validator_agent_next (g : Gen) (n : Nat) (a : List String)
    (tr : List (String × Int)) (r : StageRes (List PyValue × PyValue))
    (h : run_validator_agent g n a tr = .ok r) : r.next = n + 1 := by
  simp only [run_validator_agent] at h
  repeat' split at h
  all_goals first
    | exact (Except.noConfusion h)
    | (cases h; simp)

/-- Totality of the trait stage when both possible responses arrive and are
good: no Python exception escapes. -/
theorem run_trait_agent_ok (g : Gen) (n : Nat) (a : List String)
    (r0 r1 : String)
    (hg0 : g n (trait_prompt a) = .ok r0) (hgood0 : goodRespB r0 = true)
    (hg1 : g (n + 1) trait_retry_prompt = .ok r1) (hgood1 : goodRespB r1 = true) :
    ∃ t, run_trait_agent g n a = .ok t := by
  simp only [run_trait_agent, hg0, hg1]
  by_cases hc : (pyTruthy (safe_json_parse r0) && isDictB (safe_json_parse r0) &&
      pyHasKeyB (safe_json_parse r0) ("traits")) = true
  · rw [if_pos hc]
    cases hp : safe_json_parse r0 with
    | dict kvs =>
      rw [hp] at hc
      cases hf : dictFind kvs ("traits") with
      | none =>
        exfalso
        simp [pyHasKeyB, dictHasB, hf] at hc
      | some tv =>
        have htv : isDictB tv = true := by
          simp only [goodRespB, hp, hf] at hgood0
          rcases Bool.or_eq_true_iff.mp hgood0 with hfa | hd
          · rw [Bool.not_eq_true'] at hfa
            rw [hfa] at hc
            simp at hc
          · exact hd
        cases tv with
        | dict tkvs =>
          simp [pyGetItemS, hf, pyItems]
        | none => simp [isDictB] at htv
        | bool b => simp [isDictB] at htv
        | int m => simp [isDictB] at htv
        | float dd => simp [isDictB] at htv
        | str s => simp [isDictB] at htv
        | list xs => simp [isDictB] at htv
    | none => simp [hp, isDictB] at hc
    | bool b => simp [hp, isDictB] at hc
    | int m => simp [hp, isDictB] at hc
    | float dd => simp [hp, isDictB] at hc
    | str s => simp [hp, isDictB] at hc
    | list xs => simp [hp, isDictB] at hc
  · rw [if_neg hc]
    by_cases ht : pyTruthy (safe_json_parse r1) = true
    · rw [if_pos ht]
      cases hp : safe_json_parse r1 with
      | dict kvs =>
        simp only [pyContains]
        cases hf : dictFind kvs ("traits") with
        | none => simp [dictHasB, hf]
        | some tv =>
          have htv : isDictB tv = true := by
            simp only [goodRespB, hp, hf] at hgood1
            rw [hp] at ht
            rcases Bool.or_eq_true_iff.mp hgood1 with hfa | hd
            · rw [Bool.not_eq_true'] at hfa
              rw [hfa] at ht
              simp at ht
            · exact hd
          cases tv with
          | dict tkvs => simp [dictHasB, hf, pyGetItemS, pyItems]
          | none => simp [isDictB] at htv
          | bool b => simp [isDictB] at htv
          | int m => simp [isDictB] at htv
          | float dd => simp [isDictB] at htv
          | str s => simp [isDictB] at htv
          | list xs => simp [isDictB] at htv
      | none => rw [hp] at ht; simp [pyTruthy] at ht
      | bool b =>
        exfalso
        simp only [goodRespB, hp] at hgood1
        rw [hp] at ht
        rw [ht] at hgood1
        simp at hgood1
      | int m =>
        exfalso
        simp only [goodRespB, hp] at hgood1
        rw [hp] at ht
        rw [ht] at hgood1
        simp at hgood1
      | float dd =>
        exfalso
        simp only [goodRespB, hp] at hgood1
        rw [hp] at ht
        rw [ht] at hgood1
        simp at hgood1
      | str s =>
        exfalso
        simp only [goodRespB, hp] at hgood1
        rw [hp] at ht
        rw [ht] at hgood1
        simp at hgood1
      | list xs =>
        exfalso
        simp only [goodRespB, hp] at hgood1
        rw [hp] at ht
        rw [ht] at hgood1
        simp at hgood1
    · rw [if_neg ht]
      exact ⟨_, rfl⟩

/-- Totality of the summary stage: any response at all yields a result (the
stage guards the dict access with isinstance and has an unconditional
fallback). -/
theorem run_summary_agent_ok (g : Gen) (n : Nat) (a : List String)
    (tr : List (String × Int)) (r0 : String)
    (hg0 : g n (summary_prompt a tr) = .ok r0) :
    ∃ s, run_summary_agent g n a tr = .ok s := by
  simp only [run_summary_agent, hg0]
  by_cases hc : (pyTruthy (safe_json_parse r0) && isDictB (safe_json_parse r0) &&
      pyHasKeyB (safe_json_parse r0) ("summary")) = true
  · rw [if_pos hc]
    cases hp : safe_json_parse r0 with
    | dict kvs =>
      rw [hp] at hc
      cases hf : dictFind kvs ("summary") with
      | none => simp [pyHasKeyB, dictHasB, hf] at hc
      | some sv => simp [pyGetItemS, hf]
    | none => simp [hp, isDictB] at hc
    | bool b => simp [hp, isDictB] at hc
    | int m => simp [hp, isDictB] at hc
    | float dd => simp [hp, isDictB] at hc
    | str s => simp [hp, isDictB] at hc
    | list xs => simp [hp, isDictB] at hc
  · rw [if_neg hc]
    exact ⟨_, rfl⟩

/-- Totality of the validator stage when the response is good: a truthy parse
is then a mapping, so the `.get` calls cannot raise, and the heuristic branch
is total. -/
theorem run_validator_agent_ok (g : Gen) (n : Nat) (a : List String)
    (tr : List (String × Int)) (r0 : String)
    (hg0 : g n (validator_prompt a tr) = .ok r0) (hgood0 : goodRespB r0 = true) :
    ∃ v, run_validator_agent g n a tr = .ok v := by
  simp only [run_validator_agent, hg0]
  by_cases ht : pyTruthy (safe_json_parse r0) = true
  · rw [if_pos ht]
    cases hp : safe_json_parse r0 with
    | dict kvs => simp [pyDictGet]
    | none => rw [hp] at ht; simp [pyTruthy] at ht
    | bool b =>
      exfalso
      simp only [goodRespB, hp] at hgood0
      rw [hp] at ht
      rw [ht] at hgood0
      simp at hgood0
    | int m =>
      exfalso
      simp only [goodRespB, hp] at hgood0
      rw [hp] at ht
      rw [ht] at hgood0
      simp at hgood0
    | float dd =>
      exfalso
      simp only [goodRespB, hp] at hgood0
      rw [hp] at ht
      rw [ht] at hgood0
      simp at hgood0
    | str s =>
      exfalso
      simp only [goodRespB, hp] at hgood0
      rw [hp] at ht
      rw [ht] at hgood0
      simp at hgood0
    | list xs =>
      exfalso
      simp only [goodRespB, hp] at hgood0
      rw [hp] at ht
      rw [ht] at hgood0
      simp at hgood0
  · rw [if_neg ht]
    by_cases hl : (((pySplitlines r0).map pyStrip).filter (fun l => l ≠ "")).isEmpty = true
    · rw [if_pos hl]
      exact ⟨_, rfl⟩
    · rw [if_neg hl]
      exact ⟨_, rfl⟩

/-- The trait stage on two unparsable responses: empty trait map, no raise
(crew_agents.py falls through both parse attempts to `traits = {}`). -/
theorem run_trait_agent_unparsable (g : Gen) (n : Nat) (a : List String)
    (r0 r1 : String)
    (hg0 : g n (trait_prompt a) = .ok r0) (hp0 : safe_json_parse r0 = PyValue.none)
    (hg1 : g (n + 1) trait_retry_prompt = .ok r1)
    (hp1 : safe_json_parse r1 = PyValue.none) :
    run_trait_agent g n a = .ok ⟨[], n + 2, [trait_prompt a, trait_retry_prompt]⟩ := by
  simp [run_trait_agent, hg0, hg1, hp0, hp1, pyTruthy]

/- ---------- C1 ---------- -/


/-- C1 counterexample: there is an oracle behaviour in which every remote
generate call returns some text (none raises), yet
run_multiagent_personality_pipeline raises an AttributeError instead of
returning the five-field mapping: the trait response parses to a mapping whose
"traits" value is the number 1, and `parsed["traits"].items()` then raises. -/
theorem claim1_counterexample :
    (∀ i s, ∃ r, gTraitsInt i s = .ok r) ∧
    run_multiagent_personality_pipeline gTraitsInt ["I like reading"] "" =
      .error (.py .attributeError) := by
  constructor
  · intro i s
    exact ⟨"\x7b\"traits\": 1\x7d", rfl⟩
  · rfl

/-- C1 amended: whenever every remote generate call returns some text AND
every response either fails to parse truthily or parses to a mapping whose
"traits" entry (if any) is itself a mapping, the pipeline returns a result —
which by construction of `PipelineResult` carries all five top-level keys
summary, traits, recommendations, validating_message and raw — and when both
the primary and the retry trait responses are unparsable, its traits map is
empty.  (Without the goodness proviso the pipeline can raise, see the
counterexample.) -/
theorem claim1_amended_pipeline_totality (g : Gen) (answers : List String)
    (nm : String)
    (hok : ∀ i s, ∃ r, g i s = .ok r ∧ goodRespB r = true) :
    ∃ res, run_multiagent_personality_pipeline g answers nm = .ok res ∧
      ((∀ r, g 0 (trait_prompt answers) = .ok r → safe_json_parse r = PyValue.none) →
       (∀ r, g 1 trait_retry_prompt = .ok r → safe_json_parse r = PyValue.none) →
       res.traits = []) := by
  obtain ⟨r0, hg0, hgood0⟩ := hok 0 (trait_prompt answers)
  obtain ⟨r1, hg1, hgood1⟩ := hok 1 trait_retry_prompt
  obtain ⟨t, hT⟩ := run_trait_agent_ok g 0 answers r0 r1 hg0 hgood0 hg1 hgood1
  obtain ⟨rs, hgs, _⟩ := hok t.next (summary_prompt answers t.out)
  obtain ⟨s, hS⟩ := run_summary_agent_ok g t.next answers t.out rs hgs
  obtain ⟨rv, hgv, hgoodv⟩ := hok s.next (validator_prompt answers t.out)
  obtain ⟨v, hV⟩ := run_validator_agent_ok g s.next answers t.out rv hgv hgoodv
  refine ⟨⟨s.out, t.out, v.out.1, v.out.2,
    (diag_raws g answers t.out v.next).1,
    (diag_raws g answers t.out v.next).2.1,
    (diag_raws g answers t.out v.next).2.2⟩, ?_, ?_⟩
  · simp only [run_multiagent_personality_pipeline, primary_pass, hT, hS, hV]
  · intro hu0 hu1
    have hteq := run_trait_agent_unparsable g 0 answers r0 r1 hg0 (hu0 r0 hg0)
      hg1 (hu1 r1 hg1)
    rw [hT] at hteq
    injection hteq with h
    simp only [h]


/-- Witness for the amended C1 theorem at a concrete oracle: all calls return
the unparsable text "junk", the pipeline returns a result, and its trait map
is empty. -/
theorem claim1_amended_pipeline_totality_witness :
    ∃ res, run_multiagent_personality_pipeline gJunkW
      ["I like reading", "", "", "", ""] "" = .ok res ∧ res.traits = [] := by
  obtain ⟨res, hok, himp⟩ :=
    claim1_amended_pipeline_totality gJunkW ["I like reading", "", "", "", ""] ""
      (fun i s => ⟨"junk", rfl, rfl⟩)
  refine ⟨res, hok, himp ?_ ?_⟩ <;>
    (intro r hr; injection hr with h; rw [← h]; rfl)

/- ---------- C2 ---------- -/


/-- C2 counterexample: a value "75%" under the "traits" key of a parsed RETRY
response is normalized to 0.0 (tenths 0), although a numeric interpretation
exists — the claim's own algorithm (implemented verbatim on the primary path
by `normalize_trait_value`) maps it to 75.0 (tenths 750).  The retry path at
crew_agents.py lines 125-128 omits the percent-strip fallback. -/
theorem claim2_counterexample :
    run_trait_agent gRetryPct 0 ["I like reading"] =
      .ok ⟨[("X", 0)], 2, [trait_prompt ["I like reading"], trait_retry_prompt]⟩ ∧
    normalize_trait_value (.str "75%") = 750 ∧ (0 : Int) ≠ 750 := by
  refine ⟨rfl, rfl, by decide⟩

/-- C2 amended: the full claimed normalization — direct coercion, then
percent-stripped coercion of `str(v)`, then the 0.0 default, then clamping to
[0,100] and rounding to 1 decimal — is exactly what the PRIMARY path computes;
the RETRY path instead uses direct coercion only, defaulting to 0.0 even for
percent strings.  Both paths always produce a score in [0,100] with one
decimal place (scores are integer tenths: the score is `tenths / 10`). -/
theorem claim2_amended_normalizer (v : PyValue) :
    (0 ≤ normalize_trait_value v ∧ normalize_trait_value v ≤ 1000) ∧
    (0 ≤ normalize_trait_value_retry v ∧ normalize_trait_value_retry v ≤ 1000) ∧
    (∀ d, pyFloatCoerce v = some d →
        normalize_trait_value v = normalizeScore d ∧
        normalize_trait_value_retry v = normalizeScore d) ∧
    (∀ d, pyFloatCoerce v = Option.none →
        pyParseFloat (rstripPct (pyStrip (pyStr v))) = some d →
        normalize_trait_value v = normalizeScore d ∧
        normalize_trait_value_retry v = 0) ∧
    (pyFloatCoerce v = Option.none →
        pyParseFloat (rstripPct (pyStrip (pyStr v))) = Option.none →
        normalize_trait_value v = 0 ∧ normalize_trait_value_retry v = 0) ∧
    (0 : ℚ) ≤ (normalize_trait_value v : ℚ) / 10 ∧
    (normalize_trait_value v : ℚ) / 10 ≤ 100 := by
  have hb : 0 ≤ normalize_trait_value v ∧ normalize_trait_value v ≤ 1000 := by
    unfold normalize_trait_value
    cases hc : pyFloatCoerce v with
    | some d => exact normalizeScore_bounds d
    | none =>
      cases hp : pyParseFloat (rstripPct (pyStrip (pyStr v))) with
      | some d => exact normalizeScore_bounds d
      | none => exact normalizeScore_bounds ⟨0, 0⟩
  have hbr : 0 ≤ normalize_trait_value_retry v ∧
      normalize_trait_value_retry v ≤ 1000 := by
    unfold normalize_trait_value_retry
    cases hc : pyFloatCoerce v with
    | some d => exact normalizeScore_bounds d
    | none => exact normalizeScore_bounds ⟨0, 0⟩
  refine ⟨hb, hbr, ?_, ?_, ?_, ?_, ?_⟩
  · intro d hc
    unfold normalize_trait_value normalize_trait_value_retry
    rw [hc]
    exact ⟨rfl, rfl⟩
  · intro d hc hp
    unfold normalize_trait_value normalize_trait_value_retry
    rw [hc, hp]
    exact ⟨rfl, rfl⟩
  · intro hc hp
    unfold normalize_trait_value normalize_trait_value_retry
    rw [hc, hp]
    exact ⟨rfl, rfl⟩
  · exact div_nonneg (by exact_mod_cast hb.1) (by norm_num)
  · rw [div_le_iff₀ (by norm_num : (0:ℚ) < 10)]
    have h2 : ((normalize_trait_value v : ℚ)) ≤ 1000 := by exact_mod_cast hb.2
    linarith

/- ---------- C3 ---------- -/

/-- C3 confirmed: safe_json_parse never raises (it is a total function); it
returns the strict JSON parse of the whole text when that succeeds, otherwise
the parse of the substring from the first opening brace to the last closing
brace inclusive when that substring exists and parses, otherwise the Python
None no-structure signal; and the two concrete examples from the spec hold. -/
theorem claim3_safe_json_parse_spec :
    (∀ t : String,
      match json_loads t with
      | some v => safe_json_parse t = v
      | Option.none =>
        match braceSubstring t with
        | some sub =>
          safe_json_parse t =
            (match json_loads sub with
             | some v => v
             | Option.none => PyValue.none)
        | Option.none => safe_json_parse t = PyValue.none) ∧
    safe_json_parse ("prefix text \x7b\"a\":1\x7d suffix") = .dict [("a", .int 1)] ∧
    safe_json_parse ("not json at all") = PyValue.none := by
  refine ⟨?_, rfl, rfl⟩
  intro t
  cases hl : json_loads t with
  | some v => simp [safe_json_parse, hl]
  | none =>
    cases hf : firstIdxOf t.data '\x7b' with
    | none => simp [safe_json_parse, braceSubstring, hl, hf]
    | some s =>
      cases hg : lastIdxOf t.data '\x7d' with
      | none => simp [safe_json_parse, braceSubstring, hl, hf, hg]
      | some e =>
        by_cases hse : s < e
        · simp only [safe_json_parse, braceSubstring, hl, hf, hg, if_pos hse]
        · simp [safe_json_parse, braceSubstring, hl, hf, hg, hse]

/- ---------- C10 ---------- -/

/-- C10 confirmed: safe_json_parse returns whatever JSON value the full text
parses to — arrays, numbers, strings and booleans included, not only mappings
— and the JSON document "null" yields Python None, the very value used as the
no-structure failure signal, so a caller cannot tell a null document from a
parse failure. -/
theorem claim10_safe_json_parse_values :
    (∀ t v, json_loads t = some v → safe_json_parse t = v) ∧
    safe_json_parse ("[1, 2]") = .list [.int 1, .int 2] ∧
    safe_json_parse ("7") = .int 7 ∧
    safe_json_parse ("\"hello\"") = .str "hello" ∧
    safe_json_parse ("true") = .bool true ∧
    safe_json_parse ("null") = PyValue.none ∧
    safe_json_parse ("xyzzy") = PyValue.none ∧
    safe_json_parse ("null") = safe_json_parse ("xyzzy") := by
  refine ⟨?_, rfl, rfl, rfl, rfl, rfl, rfl, rfl⟩
  intro t v h
  simp [safe_json_parse, h]

/-- Witness for the general clause of C10 at a concrete document. -/
theorem claim10_safe_json_parse_values_witness :
    safe_json_parse ("0") = .int 0 :=
  claim10_safe_json_parse_values.1 ("0") (.int 0) rfl

/-- Witness for the amended C2 theorem at concrete inputs: the percent string
" 55.5% " goes through the percent-strip fallback on the primary path (55.5,
tenths 555) and defaults to 0.0 on the retry path; the integer 75 coerces
directly on both paths. -/
theorem claim2_amended_normalizer_witness :
    normalize_trait_value (.str " 55.5% ") = normalizeScore ⟨555, -1⟩ ∧
    normalize_trait_value_retry (.str " 55.5% ") = 0 ∧
    normalize_trait_value (.int 75) = normalizeScore ⟨75, 0⟩ := by
  have h1 := claim2_amended_normalizer (.str " 55.5% ")
  have h2 := claim2_amended_normalizer (.int 75)
  exact ⟨(h1.2.2.2.1 ⟨555, -1⟩ rfl rfl).1, (h1.2.2.2.1 ⟨555, -1⟩ rfl rfl).2,
    (h2.2.2.1 ⟨75, 0⟩ rfl).1⟩

/- ---------- C7 ---------- -/

/-- C7 confirmed: whenever the validator's structured parse fails (falsy
parse), the stage returns exactly the spec's heuristic — every non-empty
stripped line beginning with a dash or a digit, marker-stripped, as a
recommendation; the first three lines verbatim when none match; the last
non-empty line as the validating message — and the spec's concrete example
evaluates as claimed. -/
theorem claim7_validator_heuristic :
    (∀ (g : Gen) (n : Nat) (answers : List String) (tr : List (String × Int))
        (raw : String),
      g n (validator_prompt answers tr) = .ok raw →
      pyTruthy (safe_json_parse raw) = false →
      run_validator_agent g n answers tr =
        .ok ⟨((specRecs raw).map PyValue.str, .str (specMsg raw)), n + 1,
             [validator_prompt answers tr]⟩) ∧
    specRecs ("1. Do X\n2. Do Y\nKeep going, you\x27re doing great.") =
      ["Do X", "Do Y"] ∧
    specMsg ("1. Do X\n2. Do Y\nKeep going, you\x27re doing great.") =
      "Keep going, you\x27re doing great." := by
  refine ⟨?_, rfl, rfl⟩
  intro g n answers tr raw hg ht
  simp only [run_validator_agent, hg]
  rw [if_neg (by rw [ht]; simp)]
  by_cases hle : (((pySplitlines raw).map pyStrip).filter (fun l => l ≠ "")).isEmpty
  · rw [if_pos hle]
    have hnil : ((pySplitlines raw).map pyStrip).filter (fun l => l ≠ "") = [] :=
      List.isEmpty_iff.mp hle
    unfold specRecs specMsg heurLines
    rw [hnil]
    rfl
  · rw [if_neg hle]
    simp [specRecs, specMsg, heurLines, validatorRecLoop_eq]

/-- Witness for C7's general clause at the spec's concrete raw text. -/
theorem claim7_validator_heuristic_witness :
    run_validator_agent
      (fun _ _ => .ok ("1. Do X\n2. Do Y\nKeep going, you\x27re doing great."))
      0 ["I like reading"] [] =
      .ok ⟨([.str "Do X", .str "Do Y"],
            .str ("Keep going, you\x27re doing great.")), 1,
           [validator_prompt ["I like reading"] []]⟩ := by
  have h := claim7_validator_heuristic.1
    (fun _ _ => .ok ("1. Do X\n2. Do Y\nKeep going, you\x27re doing great."))
    0 ["I like reading"] []
    ("1. Do X\n2. Do Y\nKeep going, you\x27re doing great.") rfl rfl
  rw [h]
  rfl

/- ---------- C8 ---------- -/

/-- C8 confirmed: run_summary_agent issues exactly one call (never a retry);
when the parse of the response is a mapping containing "summary" it returns
that value, and otherwise — parse failure, non-mapping, or key absent, i.e.
exactly when the parsed value has no "summary" key — it returns the first
1000 characters of the raw stripped response text.  (The source's extra
truthiness/isinstance guards are equivalent to key-containment, see
cond_eq_hasKey.) -/
theorem claim8_summary_no_retry (g : Gen) (n : Nat) (answers : List String)
    (tr : List (String × Int)) :
    (∀ r, run_summary_agent g n answers tr = .ok r →
      r.next = n + 1 ∧ r.prompts = [summary_prompt answers tr]) ∧
    (∀ raw, g n (summary_prompt answers tr) = .ok raw →
      (∀ kvs sv, safe_json_parse raw = .dict kvs →
        dictFind kvs ("summary") = some sv →
        run_summary_agent g n answers tr =
          .ok ⟨sv, n + 1, [summary_prompt answers tr]⟩) ∧
      (pyHasKeyB (safe_json_parse raw) ("summary") = false →
        run_summary_agent g n answers tr =
          .ok ⟨.str (strTake (pyStrip raw) 1000), n + 1,
               [summary_prompt answers tr]⟩)) := by
  refine ⟨?_, ?_⟩
  · intro r h
    simp only [run_summary_agent] at h
    repeat' split at h
    all_goals first
      | exact (Except.noConfusion h)
      | (cases h; exact ⟨rfl, rfl⟩)
  · intro raw hg
    constructor
    · intro kvs sv hp hf
      simp only [run_summary_agent, hg, cond_eq_hasKey, hp]
      rw [if_pos]
      · simp [pyGetItemS, hf]
      · simp [pyHasKeyB, dictHasB, hf]
    · intro hk
      simp only [run_summary_agent, hg, cond_eq_hasKey, hk]
      simp

/-- Witness for C8 at a concrete oracle: a well-formed summary response is
returned verbatim, in one call. -/
theorem claim8_summary_no_retry_witness :
    run_summary_agent (fun _ _ => .ok ("\x7b\"summary\": \"calm reader\"\x7d"))
      0 ["I like reading"] [] =
      .ok ⟨.str "calm reader", 1, [summary_prompt ["I like reading"] []]⟩ := by
  have h := (claim8_summary_no_retry
    (fun _ _ => .ok ("\x7b\"summary\": \"calm reader\"\x7d")) 0 ["I like reading"] []).2
    ("\x7b\"summary\": \"calm reader\"\x7d") rfl
  exact h.1 [("summary", .str "calm reader")] (.str "calm reader") rfl rfl

/- ---------- C4 ---------- -/

/-- C4 counterexample: with every response unparsable, TraitAgent's retry
prompt is the raw unformatted template plus the instruction — NOT the primary
prompt text plus the instruction — and ValidatorAgent, whose parse also
failed, issues exactly one call (no retry at all). -/
theorem claim4_counterexample :
    (run_trait_agent gJunkW 0 ["I like reading"]).toOption.map StageRes.prompts =
      some [trait_prompt ["I like reading"], trait_retry_prompt] ∧
    trait_retry_prompt ≠
      trait_prompt ["I like reading"] ++
        "\nImportant: Return only JSON and nothing else." ∧
    (∃ v, run_validator_agent gJunkW 0 ["I like reading"] [] = .ok v ∧
      v.prompts.length = 1) := by
  refine ⟨rfl, by decide, ⟨_, rfl, rfl⟩⟩

/-- C4 amended: on primary parse failure or missing key, TraitAgent issues
exactly one retry whose prompt is the unformatted TRAIT_PROMPT template with
the return-only-JSON instruction appended (the answers are not substituted),
and the retry response is parsed before any fallback: an unparsable retry
yields the empty map, a parsed retry mapping with a traits mapping yields its
normalized entries, and a raised retry call propagates.  SummaryAgent and
ValidatorAgent never retry: every successful run records exactly one prompt. -/
theorem claim4_amended_retry_policy :
    (∀ (g : Gen) (n : Nat) (answers : List String) (raw : String),
      g n (trait_prompt answers) = .ok raw →
      (pyTruthy (safe_json_parse raw) && isDictB (safe_json_parse raw) &&
        pyHasKeyB (safe_json_parse raw) ("traits")) = false →
      (∀ e, g (n + 1) trait_retry_prompt = .error e →
        run_trait_agent g n answers = .error (.api e)) ∧
      (∀ raw2, g (n + 1) trait_retry_prompt = .ok raw2 →
        pyTruthy (safe_json_parse raw2) = false →
        run_trait_agent g n answers =
          .ok ⟨[], n + 2, [trait_prompt answers, trait_retry_prompt]⟩) ∧
      (∀ raw2 kvs tkvs, g (n + 1) trait_retry_prompt = .ok raw2 →
        safe_json_parse raw2 = .dict kvs →
        dictFind kvs ("traits") = some (.dict tkvs) →
        run_trait_agent g n answers =
          .ok ⟨buildTraits normalize_trait_value_retry tkvs, n + 2,
               [trait_prompt answers, trait_retry_prompt]⟩)) ∧
    (∀ (g : Gen) (n : Nat) (answers : List String) (tr : List (String × Int))
        (r : StageRes (List PyValue × PyValue)),
      run_validator_agent g n answers tr = .ok r →
      r.prompts = [validator_prompt answers tr]) ∧
    (∀ (g : Gen) (n : Nat) (answers : List String) (tr : List (String × Int))
        (r : StageRes PyValue),
      run_summary_agent g n answers tr = .ok r →
      r.prompts = [summary_prompt answers tr]) := by
  refine ⟨?_, ?_, ?_⟩
  · intro g n answers raw hg hcond
    have hif : ¬((pyTruthy (safe_json_parse raw) && isDictB (safe_json_parse raw) &&
        pyHasKeyB (safe_json_parse raw) ("traits")) = true) := by
      rw [hcond]; simp
    refine ⟨?_, ?_, ?_⟩
    · intro e he
      simp only [run_trait_agent, hg, he]
      rw [if_neg hif]
    · intro raw2 hg2 ht2
      simp only [run_trait_agent, hg, hg2]
      rw [if_neg hif]
      rw [if_neg (by rw [ht2]; simp)]
    · intro raw2 kvs tkvs hg2 hp2 hf2
      have hkne : ¬ kvs.isEmpty := by
        intro hnil
        rw [List.isEmpty_iff.mp hnil] at hf2
        simp [dictFind] at hf2
      simp only [run_trait_agent, hg, hg2]
      rw [if_neg hif, hp2]
      rw [if_pos (by simp [pyTruthy, hkne])]
      simp [pyContains, dictHasB, hf2, pyGetItemS, pyItems]
  · intro g n answers tr r h
    simp only [run_validator_agent] at h
    repeat' split at h
    all_goals first
      | exact (Except.noConfusion h)
      | (cases h; rfl)
  · intro g n answers tr r h
    simp only [run_summary_agent] at h
    repeat' split at h
    all_goals first
      | exact (Except.noConfusion h)
      | (cases h; rfl)

/-- Witness for the amended C4 theorem at a concrete oracle: primary junk, a
parsable retry carrying one trait. -/
theorem claim4_amended_retry_policy_witness :
    run_trait_agent gRetryPct 0 ["I like reading"] =
      .ok ⟨buildTraits normalize_trait_value_retry [("X", .str "75%")], 2,
           [trait_prompt ["I like reading"], trait_retry_prompt]⟩ := by
  exact (claim4_amended_retry_policy.1 gRetryPct 0 ["I like reading"] ("junk")
    rfl rfl).2.2 ("\x7b\"traits\": \x7b\"X\": \"75%\"\x7d\x7d")
    [("traits", .dict [("X", .str "75%")])] [("X", .str "75%")] rfl rfl rfl

/- ---------- C6 ---------- -/


/-- C6 counterexample: status 201 is a 2xx success, yet call_gemini_api raises
a remote-call error — the source tests `status_code != 200`, not "not 2xx"
(generator.py line 98). -/
theorem claim6_counterexample :
    call_gemini_api cfgEnvKey (201, "created") "p" =
      .error (.remoteError 201 "created") ∧
    200 ≤ 201 ∧ 201 < 300 := by
  refine ⟨rfl, by decide, by decide⟩

/-- C6 amended: the client raises a configuration error iff no API key is
resolvable — the secrets-store value (consulted first) is empty/absent AND the
environment value is empty/absent; with a resolvable key it raises a
remote-call error carrying status and body iff the status is not exactly 200
(not: not 2xx); on a 200 response whose body is JSON it returns the extracted
text.  The function performs a single HTTP exchange — `resp` is the one
response — so it retries nothing by construction. -/
theorem claim6_amended_client_errors (c : CfgEnv) (resp : Nat × String)
    (prompt : String) :
    (call_gemini_api c resp prompt = .error .configError ↔
      (pyTruthyOptStr (if c.secretsOk then c.secretsKey else Option.none) = false ∧
       pyTruthyOptStr c.envKey = false)) ∧
    (∀ s, c.secretsOk = true → c.secretsKey = some s → s ≠ "" →
      (load_gemini_config c).1 = some s) ∧
    (pyTruthyOptStr (load_gemini_config c).1 = true →
      (resp.1 ≠ 200 →
        call_gemini_api c resp prompt = .error (.remoteError resp.1 resp.2)) ∧
      (∀ d, resp.1 = 200 → json_loads resp.2 = some d →
        call_gemini_api c resp prompt = .ok (extract_text_from_response d))) := by
  have hl : (load_gemini_config c).1 =
      (if pyTruthyOptStr (if c.secretsOk then c.secretsKey else Option.none)
       then (if c.secretsOk then c.secretsKey else Option.none) else c.envKey) := rfl
  refine ⟨?_, ?_, ?_⟩
  · by_cases htr : pyTruthyOptStr (load_gemini_config c).1 = true
    · have hcall : call_gemini_api c resp prompt =
          (if resp.1 ≠ 200 then .error (.remoteError resp.1 resp.2)
           else match json_loads resp.2 with
             | some d => .ok (extract_text_from_response d)
             | Option.none => .error .jsonDecodeError) := by
        simp only [call_gemini_api, htr]
        simp
      constructor
      · intro hcfg
        exfalso
        rw [hcall] at hcfg
        by_cases hs : resp.1 ≠ 200
        · rw [if_pos hs] at hcfg
          exact ApiErr.noConfusion (Except.error.inj hcfg)
        · rw [if_neg hs] at hcfg
          cases hj : json_loads resp.2 with
          | some d => rw [hj] at hcfg; exact Except.noConfusion hcfg
          | none => rw [hj] at hcfg; exact ApiErr.noConfusion (Except.error.inj hcfg)
      · intro ⟨hk0, henv⟩
        exfalso
        rw [hl, if_neg (by rw [hk0]; simp), henv] at htr
        exact Bool.noConfusion htr
    · have hcall : call_gemini_api c resp prompt = .error .configError := by
        simp only [call_gemini_api]
        rw [if_pos]
        simp [htr]
      rw [hcall]
      simp only [Bool.not_eq_true] at htr
      constructor
      · intro _
        rw [hl] at htr
        by_cases hk0 : pyTruthyOptStr (if c.secretsOk then c.secretsKey else Option.none) = true
        · rw [if_pos hk0] at htr
          rw [hk0] at htr
          exact Bool.noConfusion htr
        · simp only [Bool.not_eq_true] at hk0
          rw [if_neg (by rw [hk0]; simp)] at htr
          exact ⟨hk0, htr⟩
      · intro _
        rfl
  · intro s hok hkey hne
    rw [hl, hok]
    simp only [if_pos, hkey]
    rw [if_pos]
    simp [pyTruthyOptStr, hne]
  · intro htr
    have hne : ¬ (¬ pyTruthyOptStr (load_gemini_config c).1 = true) := by
      rw [htr]; simp
    constructor
    · intro hs
      simp only [call_gemini_api]
      rw [if_neg hne, if_pos hs]
    · intro d hs hj
      simp only [call_gemini_api]
      rw [if_neg hne, if_neg (by rw [hs]; simp), hj]

/-- Witness for the amended C6 theorem: a 500 response raises with status and
body; a 200 JSON response returns the extracted text. -/
theorem claim6_amended_client_errors_witness :
    call_gemini_api cfgEnvKey (500, "boom") "p" =
      .error (.remoteError 500 "boom") ∧
    call_gemini_api cfgEnvKey (200, "\x7b\"text\": \"ok\"\x7d") "p" = .ok "ok" := by
  have h1 := claim6_amended_client_errors cfgEnvKey (500, "boom") "p"
  have h2 := claim6_amended_client_errors cfgEnvKey (200, "\x7b\"text\": \"ok\"\x7d") "p"
  constructor
  · exact (h1.2.2 rfl).1 (by decide)
  · have h3 := (h2.2.2 rfl).2 (.dict [("text", .str "ok")]) rfl rfl
    rw [h3]
    rfl

/- ---------- C9 ---------- -/

/-- C9 confirmed: whatever the remote capability does during the diagnostic
raw re-calls — including raising on every one of them — the pipeline still
returns successfully and its four primary fields are exactly those composed by
the primary pass.  `g'` agrees with `g` on the primary-pass call indices and
is arbitrary on the diagnostic ones. -/
theorem claim9_diagnostic_frame (g g' : Gen) (answers : List String)
    (nm : String) (p : PrimaryOut) (hp : primary_pass g answers = .ok p)
    (hagree : ∀ i s, i < p.next → g' i s = g i s) :
    ∃ res, run_multiagent_personality_pipeline g' answers nm = .ok res ∧
      res.summary = p.summary ∧ res.traits = p.traits ∧
      res.recommendations = p.recommendations ∧
      res.validating_message = p.validating_message := by
  cases hT : run_trait_agent g 0 answers with
  | error e => simp [primary_pass, hT] at hp
  | ok t =>
    cases hS : run_summary_agent g t.next answers t.out with
    | error e => simp [primary_pass, hT, hS] at hp
    | ok s =>
      cases hV : run_validator_agent g s.next answers t.out with
      | error e => simp [primary_pass, hT, hS, hV] at hp
      | ok v =>
        have hp' : (Except.ok ⟨t.out, s.out, v.out.1, v.out.2, v.next⟩ :
            Except RunErr PrimaryOut) = .ok p := by
          rw [← hp]
          simp [primary_pass, hT, hS, hV]
        have hpv : p = ⟨t.out, s.out, v.out.1, v.out.2, v.next⟩ :=
          (Except.ok.inj hp').symm
        have htn := run_trait_agent_next g 0 answers t hT
        have hsn := run_summary_agent_next g t.next answers t.out s hS
        have hvn := run_validator_agent_next g s.next answers t.out v hV
        have htb : 1 ≤ t.next ∧ t.next ≤ 2 := by rcases htn with h | h <;> omega
        have hpn : p.next = v.next := by rw [hpv]
        have h0 : ∀ s', g' 0 s' = g 0 s' := fun s' => hagree 0 s' (by omega)
        have h1 : ∀ s', g' 1 s' = g 1 s' := fun s' => hagree 1 s' (by omega)
        have hts : ∀ s', g' t.next s' = g t.next s' :=
          fun s' => hagree t.next s' (by omega)
        have hss : ∀ s', g' s.next s' = g s.next s' :=
          fun s' => hagree s.next s' (by omega)
        have hT' : run_trait_agent g' 0 answers = run_trait_agent g 0 answers :=
          run_trait_agent_congr g g' 0 answers h0 h1
        have hS' : run_summary_agent g' t.next answers t.out =
            run_summary_agent g t.next answers t.out :=
          run_summary_agent_congr g g' t.next answers t.out hts
        have hV' : run_validator_agent g' s.next answers t.out =
            run_validator_agent g s.next answers t.out :=
          run_validator_agent_congr g g' s.next answers t.out hss
        refine ⟨⟨s.out, t.out, v.out.1, v.out.2,
          (diag_raws g' answers t.out v.next).1,
          (diag_raws g' answers t.out v.next).2.1,
          (diag_raws g' answers t.out v.next).2.2⟩, ?_, ?_, ?_, ?_, ?_⟩
        · simp only [run_multiagent_personality_pipeline, primary_pass,
            hT', hT, hS', hS, hV', hV]
        · rw [hpv]
        · rw [hpv]
        · rw [hpv]
        · rw [hpv]


/-- Witness for C9 at a concrete oracle: all three diagnostic re-calls raise,
yet the pipeline returns with the primary fields of the all-junk run. -/
theorem claim9_diagnostic_frame_witness :
    ∃ res, run_multiagent_personality_pipeline gDiagFail ["hi"] "" = .ok res ∧
      res.summary = .str "junk" ∧ res.traits = [] ∧
      res.recommendations = [.str "junk"] ∧
      res.validating_message = .str "junk" := by
  obtain ⟨res, hres, h1, h2, h3, h4⟩ := claim9_diagnostic_frame gDiagFail gDiagFail
    ["hi"] "" ⟨[], .str "junk", [.str "junk"], .str "junk", 4⟩ rfl
    (fun i s _ => rfl)
  exact ⟨res, hres, h1, h2, h3, h4⟩

/- ---------- C5 ---------- -/

/-- On well-shaped parts the source's part loop collects exactly the spec's
text values, raising nothing. -/
theorem collectPartTexts_well (ps : List PyValue) (h : ps.all wellPart = true) :
    collectPartTexts ps = .ok ((specPartTexts ps).map PyValue.str) := by
  induction ps with
  | nil => rfl
  | cons p rest ih =>
    rw [List.all_cons, Bool.and_eq_true] at h
    obtain ⟨hp, hrest⟩ := h
    cases p with
    | dict pkvs =>
      cases hf : dictFind pkvs ("text") with
      | none =>
        simp only [collectPartTexts, specPartTexts, pyContains, dictHasB, hf,
          Option.isSome]
        simpa using ih hrest
      | some tv =>
        simp only [wellPart] at hp
        rw [hf] at hp
        cases tv with
        | str s =>
          simp only [collectPartTexts, specPartTexts, pyContains, dictHasB, hf,
            Option.isSome, pyGetItemS]
          rw [ih hrest]
          simp
        | none => simp at hp
        | bool b => simp at hp
        | int m => simp at hp
        | float dd => simp at hp
        | list xs => simp at hp
        | dict dkvs => simp at hp
    | none => simp [wellPart] at hp
    | bool b => simp [wellPart] at hp
    | int m => simp [wellPart] at hp
    | float dd => simp [wellPart] at hp
    | str s => simp [wellPart] at hp
    | list xs => simp [wellPart] at hp

/-- On well-shaped blocks the source's content loop collects exactly the
spec's text values in encounter order. -/
theorem collectContentTexts_well (bs : List PyValue) (h : wellBlocks bs = true) :
    collectContentTexts bs = .ok ((specBlockTexts bs).map PyValue.str) := by
  induction bs with
  | nil => rfl
  | cons b rest ih =>
    unfold wellBlocks at h ih
    rw [List.all_cons, Bool.and_eq_true] at h
    obtain ⟨hb, hrest⟩ := h
    cases b with
    | dict bkvs =>
      simp only [wellBlock] at hb
      cases hparts : dictGetD bkvs ("parts") (.list []) with
      | list ps =>
        rw [hparts] at hb
        unfold wellParts at hb
        simp only [collectContentTexts, specBlockTexts, pyDictGet, hparts, pyIter]
        rw [collectPartTexts_well ps hb, ih hrest]
        simp
      | none => rw [hparts] at hb; simp [wellParts] at hb
      | bool bb => rw [hparts] at hb; simp [wellParts] at hb
      | int m => rw [hparts] at hb; simp [wellParts] at hb
      | float dd => rw [hparts] at hb; simp [wellParts] at hb
      | str s => rw [hparts] at hb; simp [wellParts] at hb
      | dict dkvs => rw [hparts] at hb; simp [wellParts] at hb
    | none => simp [wellBlock] at hb
    | bool bb => simp [wellBlock] at hb
    | int m => simp [wellBlock] at hb
    | float dd => simp [wellBlock] at hb
    | str s => simp [wellBlock] at hb
    | list xs => simp [wellBlock] at hb


/-- C5 counterexample: on this well-formed mapping the claimed algorithm
reaches the depth-first scan (which finds "hi"), but the code raises inside
the candidates probing (`data["candidates"][0]` on the integer 5), jumps to
the except handler, and returns the JSON re-serialization instead — the scan
is skipped. -/
theorem claim5_counterexample :
    find_texts dataC5 = ["hi"] ∧
    extract_text_from_response dataC5 =
      "\x7b\"candidates\": 5, \"text\": \"hi\"\x7d" ∧
    extract_text_from_response dataC5 ≠ "hi" := by
  refine ⟨rfl, rfl, by decide⟩

/-- C5 amended: the extractor is total (always returns some text) and follows
the claimed priority order — candidates/content texts, then the depth-first
"text"-field scan, then JSON re-serialization — with the proviso that a raised
probing error (ill-shaped value along the candidates path) skips the scan and
re-serializes directly.  Clause five states the content path on well-shaped
candidates; clauses one to three characterize the try/except structure;
clause four gives the scan-or-serialize behaviour when no candidates key is
present. -/
theorem claim5_amended_extraction (data : PyValue) :
    (∀ s, extract_try data = .ok (some s) → extract_text_from_response data = s) ∧
    (extract_try data = .ok Option.none →
      extract_text_from_response data = json_dumps data) ∧
    (∀ e, extract_try data = .error e →
      extract_text_from_response data = json_dumps data) ∧
    (∀ kvs, data = .dict kvs → dictHasB kvs ("candidates") = false →
      extract_text_from_response data =
        (if (find_texts data).isEmpty then json_dumps data
         else joinSep ("\n") (find_texts data))) ∧
    (∀ kvs c1 crest ckvs blocks, data = .dict kvs →
      dictFind kvs ("candidates") = some (.list (c1 :: crest)) →
      c1 = .dict ckvs →
      dictFind ckvs ("content") = some (.list blocks) →
      wellBlocks blocks = true →
      specBlockTexts blocks ≠ [] →
      extract_text_from_response data = joinSep ("\n") (specBlockTexts blocks)) := by
  refine ⟨?_, ?_, ?_, ?_, ?_⟩
  · intro s h
    simp [extract_text_from_response, h]
  · intro h
    simp [extract_text_from_response, h]
  · intro e h
    simp [extract_text_from_response, h]
  · intro kvs hd hnc
    subst hd
    have h1 : pyContains (.dict kvs) ("candidates") = .ok false := by
      simp [pyContains, hnc]
    have h2 : extract_try (.dict kvs) = .ok (dfsResult (.dict kvs)) := by
      simp [extract_try, h1]
    simp only [extract_text_from_response, h2]
    unfold dfsResult
    by_cases hemp : (find_texts (.dict kvs)).isEmpty
    · rw [if_pos hemp, if_pos hemp]
    · rw [if_neg hemp, if_neg hemp]
  · intro kvs c1 crest ckvs blocks hd hf hc1 hcontent hwell hne
    subst hd
    subst hc1
    have hcb : contentBranch (.dict ckvs) =
        .ok (some (joinSep ("\n") (specBlockTexts blocks))) := by
      have hcc : pyContains (.dict ckvs) ("content") = .ok true := by
        simp [pyContains, dictHasB, hcontent]
      have hgc : pyGetItemS (.dict ckvs) ("content") = .ok (.list blocks) := by
        simp [pyGetItemS, hcontent]
      simp only [contentBranch, hcc, hgc, pyIter,
        collectContentTexts_well blocks hwell]
      rw [if_neg (by simp [hne])]
      rw [pyJoinNL_map_str]
    have h1 : pyContains (.dict kvs) ("candidates") = .ok true := by
      simp [pyContains, dictHasB, hf]
    have hg : pyGetItemS (.dict kvs) ("candidates") =
        .ok (.list (.dict ckvs :: crest)) := by
      simp [pyGetItemS, hf]
    have h2 : extract_try (.dict kvs) =
        .ok (some (joinSep ("\n") (specBlockTexts blocks))) := by
      simp [extract_try, h1, hg, pyGetIdx0, pyTruthy, hcb]
    simp [extract_text_from_response, h2]



/-- Witness for the amended C5 theorem at the spec's two concrete bodies:
the content path joins "Hello" and "World"; the scan path finds "buried". -/
theorem claim5_amended_extraction_witness :
    extract_text_from_response dataHello5 = "Hello\nWorld" ∧
    extract_text_from_response dataBuried5 = "buried" := by
  constructor
  · have h := (claim5_amended_extraction dataHello5).2.2.2.2 _ _ _ _ _
      rfl rfl rfl rfl (by rfl) (by decide)
    exact h.trans (by rfl)
  · have h := (claim5_amended_extraction dataBuried5).2.2.2.1 _ rfl rfl
    exact h.trans (by rfl)
